import Mathlib

/-!
# Holistic Hospitals front-end: the authenticated request gateway

A shallow embedding of `src/src/api.js`: the token check `isTokenExpiringSoon`,
`refreshAccessToken`, the request interceptor and the response interceptor of the
axios instance `API`, and the call `API(config)` that chains them.

Asynchronous code is embedded as explicit state passing: every function takes the
`World` before it runs and returns its result (`Except JsError _`, a rejected promise
being `.error`) together with the `World` after it.  The `World` holds the
`localStorage` keys the gateway uses and a log of every observable effect.  What the
browser and the servers do is the `Env`: the JWT decoder, the clock and the answers
of the two servers, each answer indexed by the number of calls made before it.
-/

namespace HolisticHospitals

/-! ## JavaScript values -/

/-- A JavaScript value as the gateway meets one: in a JSON body, in `localStorage`
(`null` or a string) or in the local variable `token`. Numbers are integers. -/
inductive JsVal where
  | undefined
  | null
  | bool (b : Bool)
  | num (n : Int)
  | str (s : String)
  deriving DecidableEq, Repr

/-- Truthiness, as tested by `if (token)` and `!refreshToken`. -/
def JsVal.truthy : JsVal → Bool
  | .undefined => false
  | .null => false
  | .bool b => b
  | .num n => n != 0
  | .str s => s != ""

/-- String conversion, as done by a template literal and by `localStorage.setItem`. -/
def JsVal.toStr : JsVal → String
  | .undefined => "undefined"
  | .null => "null"
  | .bool true => "true"
  | .bool false => "false"
  | .num n => toString n
  | .str s => s

/-- Property read `o.k` on an object given as its key/value pairs; a key that is
not there reads as `undefined`. -/
def JsVal.field (o : List (String × JsVal)) (k : String) : JsVal :=
  (o.lookup k).getD .undefined

/-! ## Requests, responses, errors -/

/-- Header assignment `headers[k] = v`: overwrites the entry of `k`, or adds one. -/
def setHeader (hs : List (String × String)) (k v : String) : List (String × String) :=
  match hs with
  | [] => [(k, v)]
  | (k', v') :: rest => if k' = k then (k, v) :: rest else (k', v') :: setHeader rest k v

/-- Header read `headers[k]`. -/
def getHeader (hs : List (String × String)) (k : String) : Option String :=
  hs.lookup k

/-- An axios request config: what is sent, and the custom `_retry` flag that the
response interceptor puts on it. -/
structure Request where
  method : String
  url : String
  data : List (String × JsVal)
  headers : List (String × String)
  _retry : Bool
  deriving DecidableEq, Repr

/-- The assignment `config.headers["Authorization"] = value`. -/
def Request.setAuthorization (config : Request) (value : String) : Request :=
  { config with headers := setHeader config.headers "Authorization" value }

/-- An HTTP response: status code and JSON body. -/
structure Response where
  status : Nat
  data : List (String × JsVal)
  deriving DecidableEq, Repr

/-- A thrown value or rejection reason: `new Error(message)`, which has neither
`config` nor `response`, or an axios error, which carries the config of the request
that failed and the response when the server answered. -/
inductive JsError where
  | error (message : String)
  | axiosError (config : Request) (response : Option Response)
  deriving DecidableEq, Repr

/-- The property `error.response`. -/
def JsError.response : JsError → Option Response
  | .error _ => none
  | .axiosError _ r => r

/-- The property `error.config`. -/
def JsError.config : JsError → Option Request
  | .error _ => none
  | .axiosError c _ => some c

/-! ## The world -/

/-- The three `localStorage` keys of the credential store; `none` is an absent key. -/
structure Store where
  token : Option String
  refreshToken : Option String
  username : Option String
  deriving DecidableEq, Repr

/-- Everything the gateway reads or changes. `refreshCalls` counts the calls of
`refreshAccessToken`, `refreshPosts` lists the requests posted to the token-refresh
endpoint, `sent` the requests the instance `API` handed to the backend, `location`
the values assigned to `window.location.href`, `alerts` the messages alerted, and
`clockReads` counts the reads of `Date.now()`. -/
structure World where
  store : Store
  clockReads : Nat
  refreshCalls : Nat
  refreshPosts : List Request
  sent : List Request
  location : List String
  alerts : List String
  deriving DecidableEq, Repr

/-- What lies outside the program. `jwtDecode token` is `none` when decoding throws,
otherwise the number read from `decoded.exp` (seconds), `some none` being NaN, as
for a payload without `exp`. `now k` is the value in milliseconds of the read of
`Date.now()` that follows `k` earlier reads. `refreshEndpoint k req` and
`backend k req` are the answers to the request that follows `k` earlier ones, `none`
when no response arrives. -/
structure Env where
  baseURL : String
  jwtDecode : String → Option (Option Int)
  now : Nat → Nat
  refreshEndpoint : Nat → Request → Option Response
  backend : Nat → Request → Option Response

/-- The default `validateStatus` of axios: a response resolves the promise when its
status is 2xx and rejects it otherwise. -/
def validateStatus (status : Nat) : Bool :=
  decide (200 ≤ status) && decide (status < 300)

/-! ## api.js -/

/-- Embeds `isTokenExpiringSoon`: `decoded.exp - Date.now() / 1000 < 60`, computed
in milliseconds; `true` when decoding throws, `false` when `exp` is NaN. The clock
is read only after a successful decode. -/
def isTokenExpiringSoon (env : Env) (w : World) (token : String) : Bool × World :=
  match env.jwtDecode token with
  | none => (true, w)
  | some exp =>
    let currentTime := env.now w.clockReads
    let w1 := { w with clockReads := w.clockReads + 1 }
    match exp with
    | none => (false, w1)
    | some e => (decide (e * 1000 - (currentTime : Int) < 60000), w1)

/-- The config of the `axios.post` to `API_BASE_URL + "token/refresh/"` whose body
has the one field `refresh`. -/
def refreshRequest (env : Env) (refreshToken : String) : Request :=
  { method := "post"
    url := env.baseURL ++ "token/refresh/"
    data := [("refresh", .str refreshToken)]
    headers := []
    _retry := false }

/-- The call of the global `axios.post` inside `refreshAccessToken`: it does not go
through the interceptors of `API`. -/
def axiosPost (env : Env) (w : World) (config : Request) : Except JsError Response × World :=
  let w1 := { w with refreshPosts := w.refreshPosts ++ [config] }
  match env.refreshEndpoint w.refreshPosts.length config with
  | none => (.error (.axiosError config none), w1)
  | some r =>
    if validateStatus r.status then (.ok r, w1)
    else (.error (.axiosError config (some r)), w1)

/-- The `catch` block of `refreshAccessToken`: removes the three keys, assigns
`window.location.href = "/login"` and rethrows. -/
def refreshFailed (w : World) (error : JsError) : Except JsError JsVal × World :=
  (.error error,
    { w with
      store := { token := none, refreshToken := none, username := none }
      location := w.location ++ ["/login"] })

/-- Embeds `refreshAccessToken`. -/
def refreshAccessToken (env : Env) (w : World) : Except JsError JsVal × World :=
  let w0 := { w with refreshCalls := w.refreshCalls + 1 }
  match w0.store.refreshToken with
  | none => refreshFailed w0 (.error "No refresh token available")
  | some refreshToken =>
    if refreshToken = "" then refreshFailed w0 (.error "No refresh token available")
    else
      match axiosPost env w0 (refreshRequest env refreshToken) with
      | (.error e, w1) => refreshFailed w1 e
      | (.ok response, w1) =>
        let access := JsVal.field response.data "access"
        let refresh := JsVal.field response.data "refresh"
        (.ok access,
          { w1 with
            store :=
              { w1.store with
                token := some access.toStr
                refreshToken := some refresh.toStr } })

/-- Embeds the request interceptor of `API` (the spec's `attachAuth`). -/
def requestInterceptor (env : Env) (w : World) (config : Request) :
    Except JsError Request × World :=
  match w.store.token with
  | none => (.ok config, w)
  | some token =>
    if token = "" then (.ok config, w)
    else
      match isTokenExpiringSoon env w token with
      | (true, w1) =>
        match refreshAccessToken env w1 with
        | (.error error, w2) => (.error error, w2)
        | (.ok token', w2) =>
          if token'.truthy then (.ok (config.setAuthorization ("Bearer " ++ token'.toStr)), w2)
          else (.ok config, w2)
      | (false, w1) => (.ok (config.setAuthorization ("Bearer " ++ token)), w1)

/-- The adapter step of axios: hands the request to the backend and settles the
promise by `validateStatus`. -/
def dispatchRequest (env : Env) (w : World) (config : Request) :
    Except JsError Response × World :=
  let w1 := { w with sent := w.sent ++ [config] }
  match env.backend w.sent.length config with
  | none => (.error (.axiosError config none), w1)
  | some r =>
    if validateStatus r.status then (.ok r, w1)
    else (.error (.axiosError config (some r)), w1)

/-- The rate-limit notice of the response interceptor. -/
def rateLimitNotice : String :=
  "You\x27ve reached the request limit. Please try again later."

/-- Embeds the error handler of the response interceptor. `resend` is the call
`API(originalRequest)`; `none` is a call that has not returned. -/
def responseInterceptorRejected
    (resend : World → Request → Option (Except JsError Response × World))
    (env : Env) (w : World) (error : JsError) :
    Option (Except JsError Response × World) :=
  match error with
  | .axiosError originalRequest (some response) =>
    if response.status = 401 ∧ originalRequest._retry = false then
      let originalRequest1 := { originalRequest with _retry := true }
      match refreshAccessToken env w with
      | (.ok token, w1) =>
        resend w1 (originalRequest1.setAuthorization ("Bearer " ++ token.toStr))
      | (.error refreshError, w1) => some (.error refreshError, w1)
    else if response.status = 429 then
      some (.error error, { w with alerts := w.alerts ++ [rateLimitNotice] })
    else some (.error error, w)
  | _ => some (.error error, w)

/-- Embeds a call `API(config)` of the axios instance: the promise chain request
interceptor, dispatch, response interceptor. A rejection of the request interceptor
skips the dispatch and reaches the error handler of the response interceptor. The
handler calls `API` again, so the embedding counts calls down from `fuel`; `none`
is a chain that needed more calls. -/
def API (env : Env) : Nat → World → Request → Option (Except JsError Response × World)
  | 0, _, _ => none
  | fuel + 1, w, config =>
    match requestInterceptor env w config with
    | (.error e, w1) => responseInterceptorRejected (API env fuel) env w1 e
    | (.ok config1, w1) =>
      match dispatchRequest env w1 config1 with
      | (.ok response, w2) => some (.ok response, w2)
      | (.error e, w2) => responseInterceptorRejected (API env fuel) env w2 e

/-! ## Sample inputs -/

/-- A decoder that reads the expiry of three sample tokens and throws on any other. -/
def sampleDecode (token : String) : Option (Option Int) :=
  if token = "fresh" then some (some 2000)
  else if token = "stale" then some (some 1030)
  else if token = "noexp" then some none
  else if token = "A2" then some (some 5000)
  else none

/-- A token-refresh endpoint that answers every request with the pair `A2`, `R2`. -/
def rotatingEndpoint (_ : Nat) (_ : Request) : Option Response :=
  some { status := 200, data := [("access", .str "A2"), ("refresh", .str "R2")] }

/-- A backend that answers every request with 200 and an empty body. -/
def okBackend (_ : Nat) (_ : Request) : Option Response :=
  some { status := 200, data := [] }

/-- The clock stands at 1000 s; refreshes succeed; the backend answers 200. -/
def sampleEnv : Env :=
  { baseURL := "http://127.0.0.1:8000/api/"
    jwtDecode := sampleDecode
    now := fun _ => 1000000
    refreshEndpoint := rotatingEndpoint
    backend := okBackend }

/-- A world with the given credential store and no effect logged yet. -/
def worldOf (store : Store) : World :=
  { store := store
    clockReads := 0
    refreshCalls := 0
    refreshPosts := []
    sent := []
    location := []
    alerts := [] }

/-- A `GET appointments/view/?page=1` as a page hands it to `API`. -/
def sampleRequest : Request :=
  { method := "get"
    url := "appointments/view/?page=1"
    data := []
    headers := [("Accept", "application/json")]
    _retry := false }

/-- A token-refresh endpoint that rejects every refresh token with 401. -/
def rejectingEndpoint (_ : Nat) (_ : Request) : Option Response :=
  some { status := 401, data := [("detail", .str "Token is invalid or expired")] }

/-- As `sampleEnv`, but every refresh is rejected with 401. -/
def rejectingEnv : Env :=
  { sampleEnv with refreshEndpoint := rejectingEndpoint }

/-- A backend that answers the first request with 401 and every later one with 200. -/
def expiredOnceBackend (k : Nat) (_ : Request) : Option Response :=
  if k = 0 then some { status := 401, data := [] }
  else some { status := 200, data := [("count", .num 3)] }

/-- As `sampleEnv`, but the backend rejects the first request with 401. -/
def expiredOnceEnv : Env :=
  { sampleEnv with backend := expiredOnceBackend }

/-- A backend that answers every request with 401. -/
def unauthorizedBackend (_ : Nat) (_ : Request) : Option Response :=
  some { status := 401, data := [] }

/-- As `sampleEnv`, but the backend rejects every request with 401. -/
def unauthorizedEnv : Env :=
  { sampleEnv with backend := unauthorizedBackend }

/-- A credential store whose access token expires 30 s after the sample clock. -/
def staleStore : Store :=
  { token := some "stale", refreshToken := some "R1", username := some "u" }

/-- A credential store whose access token is good for another 1000 s. -/
def freshStore : Store :=
  { token := some "fresh", refreshToken := some "R1", username := some "u" }

/-! ## Credentials kept, refreshes that succeed -/

/-- Every key of the credential store that is present in `s` is present in `s'`. -/
def keysKept (s s' : Store) : Prop :=
  (s.token.isSome = true → s'.token.isSome = true)
    ∧ (s.refreshToken.isSome = true → s'.refreshToken.isSome = true)
    ∧ (s.username.isSome = true → s'.username.isSome = true)

/-- The post number `k` to the token-refresh endpoint, read from the log `posts`,
was answered with a 2xx response. -/
def refreshAnswered2xx (env : Env) (posts : List Request) (k : Nat) : Bool :=
  match posts[k]? with
  | none => false
  | some req =>
    match env.refreshEndpoint k req with
    | none => false
    | some r => validateStatus r.status

/-- Between the worlds `w` and `w'` every call of `refreshAccessToken` succeeded:
each call posted to the endpoint (as many new posts as new calls) and each new post
was answered 2xx. It holds in particular when there was no call at all. -/
def onlySuccessfulRefreshes (env : Env) (w w' : World) : Prop :=
  w'.refreshCalls - w.refreshCalls = w'.refreshPosts.length - w.refreshPosts.length
    ∧ ∀ k, w.refreshPosts.length ≤ k → k < w'.refreshPosts.length →
        refreshAnswered2xx env w'.refreshPosts k = true

/-- The bookkeeping carried along a run from `w` to `w'`: the log of posts only
grows, there is at most one new post per new call of `refreshAccessToken`, and if
every one of these calls succeeded the stored keys are kept and the location was
not assigned. -/
def RunKeeps (env : Env) (w w' : World) : Prop :=
  (∃ l, w'.refreshPosts = w.refreshPosts ++ l)
    ∧ w.refreshCalls ≤ w'.refreshCalls
    ∧ w'.refreshPosts.length + w.refreshCalls ≤ w'.refreshCalls + w.refreshPosts.length
    ∧ (onlySuccessfulRefreshes env w w' →
        keysKept w.store w'.store ∧ w'.location = w.location)

/-- A token-refresh endpoint whose first access token, "stale", is already within
60 s of its expiry; later answers carry the pair `A2`, `R3`. -/
def shortLivedEndpoint (k : Nat) (_ : Request) : Option Response :=
  if k = 0 then some { status := 200, data := [("access", .str "stale"), ("refresh", .str "R2")] }
  else some { status := 200, data := [("access", .str "A2"), ("refresh", .str "R3")] }

/-- The backend rejects the first request with 401 and the endpoint first hands
out a token that is about to expire. -/
def shortLivedEnv : Env :=
  { sampleEnv with refreshEndpoint := shortLivedEndpoint, backend := expiredOnceBackend }

/-! ## api.js: the exported calls -/

/-- Embeds `login`: `API.post("login/", credentials)`. -/
def login (env : Env) (fuel : Nat) (w : World) (credentials : List (String × JsVal)) :
    Option (Except JsError Response × World) :=
  API env fuel w
    { method := "post", url := "login/", data := credentials, headers := [], _retry := false }

/-- The JSON body that axios writes for a data object: `JSON.stringify` leaves out
every key whose value is `undefined`. -/
def jsonBody (data : List (String × JsVal)) : List (String × JsVal) :=
  data.filter (fun entry => entry.2 != JsVal.undefined)

/-- The object that `updateAppointment` passes as data: `id`, `date` and
`time || "09:00"` of the appointment data. -/
def updateAppointmentBody (appointmentData : List (String × JsVal)) : List (String × JsVal) :=
  [("id", JsVal.field appointmentData "id"),
   ("date", JsVal.field appointmentData "date"),
   ("time",
      if (JsVal.field appointmentData "time").truthy then JsVal.field appointmentData "time"
      else .str "09:00")]

/-- The request of `API.put("appointments/update/", body)`: it carries the JSON
body of the object. -/
def updateAppointmentRequest (appointmentData : List (String × JsVal)) : Request :=
  { method := "put"
    url := "appointments/update/"
    data := jsonBody (updateAppointmentBody appointmentData)
    headers := []
    _retry := false }

/-- Embeds `updateAppointment`: throws when `!appointmentData.id`, otherwise awaits
`API.put("appointments/update/", body)` and rethrows what that call throws. -/
def updateAppointment (env : Env) (fuel : Nat) (w : World)
    (appointmentData : List (String × JsVal)) : Option (Except JsError Response × World) :=
  if (JsVal.field appointmentData "id").truthy = false then
    some (.error (.error "Appointment ID is required for updates"), w)
  else API env fuel w (updateAppointmentRequest appointmentData)

/-- The request that `createOrder` posts. The function declares the one parameter
`paymentData`; any further argument of a call, here `options`, is not read. The key
is built from `Date.now()` and from `random`, the value of
`Math.random().toString(36).substring(2, 15)`. -/
def createOrderRequest (env : Env) (w : World) (random : String)
    (paymentData : List (String × JsVal)) (_options : List (String × String)) : Request :=
  let idempotencyKey := "order-" ++ toString (env.now w.clockReads) ++ "-" ++ random
  { method := "post"
    url := "create-order/"
    data := paymentData
    headers := [("X-Idempotency-Key", idempotencyKey)]
    _retry := false }

/-- Embeds `createOrder`. -/
def createOrder (env : Env) (fuel : Nat) (w : World) (random : String)
    (paymentData : List (String × JsVal)) (options : List (String × String)) :
    Option (Except JsError Response × World) :=
  API env fuel { w with clockReads := w.clockReads + 1 }
    (createOrderRequest env w random paymentData options)

/-! ## payment.js -/

/-- The call of `createOrder` in `handlePayment`, once the checkout script is
loaded: `uuid` is the key returned by `generateIdempotencyKey`, passed as the
header `X-Idempotency-Key` of a second argument. -/
def handlePayment (env : Env) (fuel : Nat) (w : World) (uuid random : String)
    (amount appointmentId : JsVal) : Option (Except JsError Response × World) :=
  createOrder env fuel w random [("amount", amount), ("appointment_id", appointmentId)]
    [("X-Idempotency-Key", uuid)]

/-! ## Login.js -/

/-- What `handleSubmit` of the Login page leaves: the error message shown (empty
when none), the routes navigated to, and the world. -/
structure LoginOutcome where
  error : String
  navigated : List String
  world : World
  deriving DecidableEq, Repr

/-- Embeds `handleSubmit` of the Login page for the submitted form data. -/
def handleSubmit (env : Env) (fuel : Nat) (w : World) (username password : String) :
    Option LoginOutcome :=
  match login env fuel w [("username", .str username), ("password", .str password)] with
  | none => none
  | some (.ok response, w1) =>
    if (JsVal.field response.data "access").truthy then
      some
        { error := ""
          navigated := ["/"]
          world :=
            { w1 with
              store :=
                { token := some (JsVal.field response.data "access").toStr
                  refreshToken := some (JsVal.field response.data "refresh").toStr
                  username := some username } } }
    else some { error := "Login failed. Please try again.", navigated := [], world := w1 }
  | some (.error error, w1) =>
    match error.response with
    | some r =>
      if r.status = 429 then
        some
          { error := "Too many login attempts. Please try again later."
            navigated := []
            world := w1 }
      else if r.status = 401 then
        some { error := "Invalid credentials. Please try again.", navigated := [], world := w1 }
      else some { error := "Login failed. Please try again later.", navigated := [], world := w1 }
    | none =>
      some { error := "Network error. Please check your connection.", navigated := [], world := w1 }

/-- A backend that answers every request with 200 and the token pair `A1`, `R1`. -/
def grantingBackend (_ : Nat) (_ : Request) : Option Response :=
  some { status := 200, data := [("access", .str "A1"), ("refresh", .str "R1")] }

/-- As `sampleEnv`, but the backend grants a token pair. -/
def grantingEnv : Env :=
  { sampleEnv with backend := grantingBackend }

/-- The credential store of a user who is logged out. -/
def emptyStore : Store :=
  { token := none, refreshToken := none, username := none }

/-! ## The JavaScript runtime: white space, `parseInt`, dates -/

/-- The characters that `\\s` matches and that `trim` strips: the white space and
line terminator code points of ECMAScript. -/
def isWhiteSpace (c : Char) : Bool :=
  let n := c.toNat
  (decide (9 ≤ n) && decide (n ≤ 13)) || n == 32 || n == 160 || n == 5760
    || (decide (8192 ≤ n) && decide (n ≤ 8202)) || n == 8232 || n == 8233 || n == 8239
    || n == 8287 || n == 12288 || n == 65279

/-- Embeds `String.prototype.trim`. -/
def jsTrim (s : String) : String :=
  String.mk ((s.data.dropWhile isWhiteSpace).reverse.dropWhile isWhiteSpace).reverse

/-- The value of a character as a digit, letters counting from ten. -/
def digitValue (c : Char) : Option Nat :=
  let n := c.toNat
  if 48 ≤ n ∧ n ≤ 57 then some (n - 48)
  else if 97 ≤ n ∧ n ≤ 122 then some (n - 87)
  else if 65 ≤ n ∧ n ≤ 90 then some (n - 55)
  else none

/-- The longest run of digits of the radix at the head of the characters. -/
def takeDigits (radix : Nat) : List Char → List Nat
  | [] => []
  | c :: cs =>
    match digitValue c with
    | some d => if d < radix then d :: takeDigits radix cs else []
    | none => []

/-- Embeds `parseInt(string, radix)`, with `radix = 0` for a call without radix:
skips leading white space, reads a sign, strips `0x` when the radix allows 16, and
reads the longest run of digits; `none` is NaN. -/
def parseInt (s : String) (radix : Nat) : Option Int :=
  let cs := s.data.dropWhile isWhiteSpace
  let negative := cs.head? == some '-'
  let cs1 :=
    match cs with
    | '-' :: rest => rest
    | '+' :: rest => rest
    | _ => cs
  if radix ≠ 0 ∧ (radix < 2 ∨ 36 < radix) then none
  else
    let stripPrefix := radix == 0 || radix == 16
    let r := if radix = 0 then 10 else radix
    let hex :=
      match cs1 with
      | '0' :: 'x' :: _ => stripPrefix
      | '0' :: 'X' :: _ => stripPrefix
      | _ => false
    let cs2 := if hex then cs1.drop 2 else cs1
    let r2 := if hex then 16 else r
    let ds := takeDigits r2 cs2
    if ds.isEmpty then none
    else
      let value : Int := (ds.foldl (fun acc d => acc * r2 + d) 0 : Nat)
      some (if negative then -value else value)

/-- Days from 1970-01-01 to the given date of the proleptic Gregorian calendar,
for years from 0 on. -/
def daysFromCivil (year month day : Nat) : Int :=
  let y := year + 400 - (if month ≤ 2 then 1 else 0)
  let era := y / 400
  let yoe := y % 400
  let mp := (month + 9) % 12
  let doy := (153 * mp + 2) / 5 + day - 1
  let doe := yoe * 365 + yoe / 4 - yoe / 100 + doy
  ((era * 146097 + doe : Nat) : Int) - 719468 - 146097

/-- Reads the characters as decimal digits. -/
def readDigits (cs : List Char) : Option Nat :=
  if cs.all Char.isDigit then some (cs.foldl (fun acc c => acc * 10 + (c.toNat - 48)) 0)
  else none

/-- Embeds `new Date(string)` for the date-only form `YYYY-MM-DD`, which is what a
date input and the backend deliver: the time value, in milliseconds, of midnight
UTC of that date. The month is 01 to 12 and the day 01 to 31; a day that the month
does not have runs over into the next month, as `daysFromCivil` counts it. Any
other string reads as an invalid date, `none`. -/
def dateParse (s : String) : Option Int :=
  match s.data with
  | [y1, y2, y3, y4, '-', m1, m2, '-', d1, d2] =>
    match readDigits [y1, y2, y3, y4], readDigits [m1, m2], readDigits [d1, d2] with
    | some year, some month, some day =>
      if 1 ≤ month ∧ month ≤ 12 ∧ 1 ≤ day ∧ day ≤ 31 then
        some (daysFromCivil year month day * 86400000)
      else none
    | _, _, _ => none
  | _ => none

/-- The day of the week, 0 for Sunday, of the day that holds the time value. -/
def weekDay (t : Int) : Int :=
  Int.emod (Int.ediv t 86400000 + 4) 7

/-- Embeds `Date.prototype.getDay`: the day of the week of the time value in local
time, `localTZA t` being the offset of local time from UTC, in milliseconds, at `t`. -/
def getDay (localTZA : Int → Int) (t : Int) : Int :=
  weekDay (t + localTZA t)

/-- The day of the week, 0 for Sunday, of a calendar date given as `YYYY-MM-DD`. -/
def calendarWeekDay (s : String) : Option Int :=
  (dateParse s).map weekDay

/-! ## BookAppointment.js and UpdateAppointment.js: validation -/

/-- The character class of the name pattern: `A-Z`, `a-z`, `\\s`, the apostrophe
and the hyphen. -/
def nameClass (c : Char) : Bool :=
  let n := c.toNat
  (decide (65 ≤ n) && decide (n ≤ 90)) || (decide (97 ≤ n) && decide (n ≤ 122))
    || isWhiteSpace c || c == '\x27' || c == '-'

/-- Embeds `nameRegex.test(name)` for the pattern `^[A-Za-z\\s\\x27-]+$` of both
pages: one character or more, all of the class. -/
def nameRegexTest (name : String) : Bool :=
  !name.data.isEmpty && name.data.all nameClass

/-- What the spec's words allow in a name: a letter, a space, an apostrophe or a
hyphen. -/
def isLetterSpaceApostropheHyphen (c : Char) : Bool :=
  let n := c.toNat
  (decide (65 ≤ n) && decide (n ≤ 90)) || (decide (97 ≤ n) && decide (n ≤ 122))
    || c == ' ' || c == '\x27' || c == '-'

/-- The fields of the booking form that `validateForm` reads. `age` is the string
typed into the field, or the value loaded from a profile. -/
structure BookForm where
  name : String
  age : JsVal
  date : String
  time : String
  department : String
  doctor : String
  deriving DecidableEq, Repr

/-- The errors by field that a `validateForm` sets; `none` is no error. -/
structure FormErrors where
  name : Option String
  age : Option String
  date : Option String
  time : Option String
  department : Option String
  doctor : Option String
  deriving DecidableEq, Repr

/-- The message of both pages for a Sunday. -/
def sundayMessage : String :=
  "Appointments are not available on Sundays"

/-- The message of both pages for the lunch break. -/
def lunchMessage : String :=
  "Appointments are not available during lunch break (1 PM to 2 PM)"

/-- The check `new Date(date).getDay() === 0` of both pages; an invalid date has
the day NaN, which is not 0. -/
def isSunday (localTZA : Int → Int) (date : String) : Bool :=
  match dateParse date with
  | none => false
  | some t => getDay localTZA t == 0

/-- Embeds `validateForm` of BookAppointment.js: the errors it sets. -/
def BookAppointment.validateForm (localTZA : Int → Int) (formData : BookForm) : FormErrors :=
  { name :=
      if formData.name = "" ∨ nameRegexTest formData.name = false then
        some ("Name contains invalid characters. "
          ++ "Only letters, spaces, apostrophes, and hyphens are allowed.")
      else none
    age :=
      match parseInt formData.age.toStr 0 with
      | none => some "Please enter a valid age between 0 and 120"
      | some age =>
        if age < 0 ∨ age > 120 then some "Please enter a valid age between 0 and 120"
        else none
    date :=
      if formData.date = "" then some "Please select an appointment date"
      else if isSunday localTZA formData.date then some sundayMessage
      else none
    time :=
      if formData.time = "" then some "Please select an appointment time"
      else if "13:".isPrefixOf formData.time then some lunchMessage
      else none
    department := if formData.department = "" then some "Please select a department" else none
    doctor := if formData.doctor = "" then some "Please select a doctor" else none }

/-- Embeds `validateName` of UpdateAppointment.js. -/
def UpdateAppointment.validateName (nameToValidate : String) : Bool :=
  jsTrim nameToValidate != "" && nameRegexTest nameToValidate

/-- Embeds `validateForm` of UpdateAppointment.js on the chosen date and time: the
errors it sets, for the date and for the time. -/
def UpdateAppointment.validateForm (localTZA : Int → Int) (newDate newTime : String) :
    Option String × Option String :=
  (if newDate = "" then some "Please select a valid date"
    else if isSunday localTZA newDate then some sundayMessage
    else none,
   if newTime = "" then some "Please select a valid time"
    else if parseInt (String.mk (newTime.data.takeWhile (fun c => c != ':'))) 10 = some 13 then
      some lunchMessage
    else none)

/-- A browser whose local time is UTC. -/
def utc (_ : Int) : Int :=
  0

/-- A browser whose local time is five hours behind UTC (New York in winter). -/
def fiveHoursWest (_ : Int) : Int :=
  -18000000

/-- A booking form that is filled in correctly for Tuesday 2024-01-09. -/
def sampleForm : BookForm :=
  { name := "Ann Lee"
    age := .str "34"
    date := "2024-01-09"
    time := "10:30:00"
    department := "Cardiology"
    doctor := "Dr. Wilson" }

/-! ## The JavaScript runtime: `isNaN`, string length -/

/-- A decimal digit. -/
def isDecimalDigit (c : Char) : Bool :=
  decide (48 ≤ c.toNat) && decide (c.toNat ≤ 57)

/-- A hexadecimal digit. -/
def isHexDigit (c : Char) : Bool :=
  isDecimalDigit c || (decide (97 ≤ c.toNat) && decide (c.toNat ≤ 102))
    || (decide (65 ≤ c.toNat) && decide (c.toNat ≤ 70))

/-- What may follow the digits of a decimal literal: nothing, or an exponent part
(`e` or `E`, an optional sign, one digit or more). -/
def isExponentPartOrEnd (cs : List Char) : Bool :=
  match cs with
  | [] => true
  | c :: rest =>
    if c == 'e' || c == 'E' then
      let digits :=
        match rest with
        | '+' :: r => r
        | '-' :: r => r
        | _ => rest
      !digits.isEmpty && digits.all isDecimalDigit
    else false

/-- An unsigned decimal literal of the string-to-number grammar: `Infinity`, or
digits with an optional fraction and exponent, with a digit before or after the
point. -/
def isDecimalLiteral (cs : List Char) : Bool :=
  if cs = "Infinity".data then true
  else
    let whole := cs.takeWhile isDecimalDigit
    match cs.dropWhile isDecimalDigit with
    | '.' :: rest =>
      let fraction := rest.takeWhile isDecimalDigit
      (!whole.isEmpty || !fraction.isEmpty)
        && isExponentPartOrEnd (rest.dropWhile isDecimalDigit)
    | rest => !whole.isEmpty && isExponentPartOrEnd rest

/-- A string converts to a number other than NaN: after trimming it is empty (0),
a `0x`, `0o` or `0b` literal, or a signed decimal literal. -/
def isNumericString (s : String) : Bool :=
  match (jsTrim s).data with
  | [] => true
  | '0' :: 'x' :: rest => !rest.isEmpty && rest.all isHexDigit
  | '0' :: 'X' :: rest => !rest.isEmpty && rest.all isHexDigit
  | '0' :: 'o' :: rest => !rest.isEmpty && rest.all (fun c => c.toNat - 48 < 8 && isDecimalDigit c)
  | '0' :: 'O' :: rest => !rest.isEmpty && rest.all (fun c => c.toNat - 48 < 8 && isDecimalDigit c)
  | '0' :: 'b' :: rest => !rest.isEmpty && rest.all (fun c => c == '0' || c == '1')
  | '0' :: 'B' :: rest => !rest.isEmpty && rest.all (fun c => c == '0' || c == '1')
  | '+' :: rest => isDecimalLiteral rest
  | '-' :: rest => isDecimalLiteral rest
  | cs => isDecimalLiteral cs

/-- Embeds the global `isNaN(value)`: the value converted to a number is NaN. -/
def jsIsNaN : JsVal → Bool
  | .undefined => true
  | .null => false
  | .bool _ => false
  | .num _ => false
  | .str s => !isNumericString s

/-- Embeds the property `length` of a string: its number of UTF-16 code units. -/
def jsLength (s : String) : Nat :=
  s.data.foldl (fun n c => n + (if c.toNat < 65536 then 1 else 2)) 0

/-! ## ProfileManagement.js -/

/-- A profile as the backend lists it; `age` is a number there. -/
structure Profile where
  profile_name : String
  patient_name : String
  age : JsVal
  sex : String
  deriving DecidableEq, Repr

/-- The form data of the profile dialogs; `age` is the text typed into the field,
or the value that `handleEditClick` loaded. -/
structure ProfileForm where
  profile_name : String
  patient_name : String
  age : JsVal
  sex : String
  deriving DecidableEq, Repr

/-- The errors by field that `validateForm` of ProfileManagement sets. -/
structure ProfileErrors where
  profile_name : Option String
  patient_name : Option String
  age : Option String
  sex : Option String
  deriving DecidableEq, Repr

/-- Embeds the form data that `handleEditClick` sets from a profile. -/
def handleEditClick (profile : Profile) : ProfileForm :=
  { profile_name := profile.profile_name
    patient_name := profile.patient_name
    age := profile.age
    sex := if profile.sex = "" then "O" else profile.sex }

/-- Embeds `validateForm` of ProfileManagement.js: the errors it sets. The names
of the loaded profiles and the flag `showEditModal` are the state it reads;
`toLowerCase` is the string method of the runtime. -/
def ProfileManagement.validateForm (toLowerCase : String → String) (showEditModal : Bool)
    (profiles : List String) (formData : ProfileForm) : ProfileErrors :=
  { profile_name :=
      if jsTrim formData.profile_name = "" then some "Profile name is required"
      else if jsLength formData.profile_name > 30 then
        some "Profile name must be less than 30 characters"
      else if showEditModal = false
          ∧ profiles.any (fun p => toLowerCase p == toLowerCase formData.profile_name) = true then
        some "This profile name is already in use"
      else none
    patient_name :=
      if jsTrim formData.patient_name = "" then some "Patient name is required"
      else if jsLength formData.patient_name > 100 then
        some "Patient name must be less than 100 characters"
      else none
    age :=
      if formData.age.truthy = false then some "Age is required"
      else if jsIsNaN formData.age then some "Age must be between 0 and 120"
      else
        match parseInt formData.age.toStr 0 with
        | none => none
        | some age => if age < 0 ∨ age > 120 then some "Age must be between 0 and 120" else none
    sex :=
      if formData.sex = "M" ∨ formData.sex = "F" ∨ formData.sex = "O" then none
      else some "Invalid selection for sex" }

/-- A profile of a child in its first year. -/
def infantProfile : Profile :=
  { profile_name := "baby", patient_name := "Ann Lee", age := .num 0, sex := "F" }

/-- A profile form that is filled in correctly. -/
def sampleProfileForm : ProfileForm :=
  { profile_name := "mum", patient_name := "Ann Lee", age := .str "34", sex := "F" }

/-! ## UpdateAppointment.js: the update -/

/-- An appointment as the backend lists it; an empty `time` is a missing one. -/
structure Appointment where
  id : JsVal
  name : String
  date : String
  time : String
  deriving DecidableEq, Repr

/-- Embeds the values that `fetchAppointment` puts into the form for the
appointment found: its date, and the first five characters of its time, or "09:00"
when it has none. -/
def prefill (foundAppointment : Appointment) : String × String :=
  (foundAppointment.date,
    if foundAppointment.time = "" then "09:00"
    else String.mk (foundAppointment.time.data.take 5))

/-- What `handleUpdate` leaves: the message shown, the step of the page, and the
world. -/
structure UpdateOutcome where
  messageType : String
  messageText : String
  step : Nat
  world : World
  deriving DecidableEq, Repr

/-- Embeds `handleUpdate` of UpdateAppointment.js, called on step 2 of the page
with the appointment found (or none) and the chosen date and time. -/
def handleUpdate (env : Env) (fuel : Nat) (w : World) (localTZA : Int → Int)
    (appointment : Option Appointment) (newDate newTime : String) : Option UpdateOutcome :=
  if UpdateAppointment.validateForm localTZA newDate newTime ≠ (none, none) then
    some
      { messageType := "warning"
        messageText := "Please correct the errors before updating your appointment."
        step := 2
        world := w }
  else
    match appointment with
    | none =>
      some
        { messageType := "warning"
          messageText := "Please enter valid date and time."
          step := 2
          world := w }
    | some appt =>
      if newDate = "" ∨ newTime = "" then
        some
          { messageType := "warning"
            messageText := "Please enter valid date and time."
            step := 2
            world := w }
      else if newDate = appt.date ∧ newTime = appt.time then
        some
          { messageType := "info"
            messageText := "The new date and time are the same as current. No changes needed."
            step := 2
            world := w }
      else
        match updateAppointment env fuel w
            [("id", appt.id), ("date", .str newDate), ("time", .str newTime)] with
        | none => none
        | some (.ok _, w1) =>
          some
            { messageType := "success"
              messageText := "Appointment updated successfully!"
              step := 3
              world := w1 }
        | some (.error error, w1) =>
          if error.response.map (fun r => r.status) = some 409 then
            some
              { messageType := "danger"
                messageText := "This appointment has been modified by someone else. "
                  ++ "Please refresh and try again."
                step := 2
                world := w1 }
          else
            let detail :=
              match error.response with
              | none => JsVal.undefined
              | some r => JsVal.field r.data "error"
            some
              { messageType := "danger"
                messageText :=
                  if detail.truthy then detail.toStr
                  else "Error updating appointment. Please try again."
                step := 2
                world := w1 }

/-- An appointment on Tuesday 2024-01-09 whose time the backend stores with seconds. -/
def sampleAppointment : Appointment :=
  { id := .num 7, name := "Ann Lee", date := "2024-01-09", time := "10:30:00" }

/-! ## The `exp` claim of a decoded payload -/

/-- The value that the payload of a decoded token has under `exp`: none at all, a
JSON `null`, a boolean, a number (of seconds, an integer), or a string that does
not read as a number. -/
inductive ExpClaim where
  | absent
  | null
  | bool (b : Bool)
  | number (seconds : Int)
  | nonNumericString
  deriving DecidableEq, Repr

/-- The payload carries a numeric `exp` claim. -/
def ExpClaim.isNumeric : ExpClaim → Bool
  | .number _ => true
  | _ => false

/-- The number that the subtraction `decoded.exp - currentTime` reads from the
claim: `undefined` and a string that is no number read as NaN (`none`), `null` and
`false` as 0, `true` as 1. -/
def ExpClaim.toNumber : ExpClaim → Option Int
  | .absent => none
  | .null => some 0
  | .bool b => some (if b then 1 else 0)
  | .number seconds => some seconds
  | .nonNumericString => none

/-- A decoder given by the `exp` claim of each token that decodes. -/
def decodeWith (payloads : String → Option ExpClaim) (token : String) : Option (Option Int) :=
  (payloads token).map ExpClaim.toNumber

/-- The token "nullexp" decodes to a payload with `exp: null`, the token "noexp" to
a payload without `exp`; no other token decodes. -/
def nullExpPayloads (token : String) : Option ExpClaim :=
  if token = "nullexp" then some .null
  else if token = "noexp" then some .absent
  else none

/-- As `sampleEnv`, with the decoder of `nullExpPayloads`. -/
def nullExpEnv : Env :=
  { sampleEnv with jwtDecode := decodeWith nullExpPayloads }

/-- A credential store whose access token has `exp: null` in its payload. -/
def nullExpStore : Store :=
  { token := some "nullexp", refreshToken := some "R1", username := some "u" }

/-- The data of an update of appointment 7 to 2024-01-09, 10:30. -/
def sampleUpdate : List (String × JsVal) :=
  [("id", .num 7), ("date", .str "2024-01-09"), ("time", .str "10:30")]

/-! ## Lemmas on headers -/

/-- Reading a header back after assigning it gives the assigned value. -/
theorem getHeader_setHeader (hs : List (String × String)) (k v : String) :
    getHeader (setHeader hs k v) k = some v := by
  induction hs with
  | nil => simp [setHeader, getHeader, List.lookup]
  | cons p rest ih =>
    obtain ⟨k', v'⟩ := p
    by_cases h : k' = k
    · simp [setHeader, getHeader, List.lookup, h]
    · have hb : (k == k') = false := by
        simpa using fun h' => h h'.symm
      simp only [setHeader, h, if_false, getHeader, List.lookup, hb]
      exact ih

/-- Assigning a header leaves every other header as it was. -/
theorem getHeader_setHeader_of_ne (hs : List (String × String)) (k k' v : String)
    (h : k' ≠ k) : getHeader (setHeader hs k v) k' = getHeader hs k' := by
  induction hs with
  | nil =>
    have hb : (k' == k) = false := by simpa using h
    simp [setHeader, getHeader, List.lookup, hb]
  | cons p rest ih =>
    obtain ⟨k0, v0⟩ := p
    by_cases h0 : k0 = k
    · subst h0
      have hb : (k' == k0) = false := by simpa using h
      simp [setHeader, getHeader, List.lookup, hb]
    · simp only [setHeader, h0, if_false, getHeader, List.lookup]
      cases hk : (k' == k0)
      · exact ih
      · rfl

/-! ## Lemmas on the refresh -/

/-- A refresh with a stored, non-empty refresh token whose post is answered with a
2xx response returns the `access` field of the answer and stores both fields. -/
theorem refreshAccessToken_of_answer (env : Env) (w : World) (R1 : String) (r : Response)
    (hrt : w.store.refreshToken = some R1) (hR1 : R1 ≠ "")
    (hanswer : env.refreshEndpoint w.refreshPosts.length (refreshRequest env R1) = some r)
    (hstatus : validateStatus r.status = true) :
    refreshAccessToken env w
      = (.ok (JsVal.field r.data "access"),
          { w with
            refreshCalls := w.refreshCalls + 1
            refreshPosts := w.refreshPosts ++ [refreshRequest env R1]
            store :=
              { token := some (JsVal.field r.data "access").toStr
                refreshToken := some (JsVal.field r.data "refresh").toStr
                username := w.store.username } }) := by
  simp [refreshAccessToken, hrt, hR1, axiosPost, hanswer, hstatus]

/-- A refresh with a stored, non-empty refresh token posts that token, once,
whatever the endpoint answers. -/
theorem refreshAccessToken_posts (env : Env) (w : World) (R : String)
    (hrt : w.store.refreshToken = some R) (hR : R ≠ "") :
    (refreshAccessToken env w).2.refreshPosts = w.refreshPosts ++ [refreshRequest env R] := by
  simp only [refreshAccessToken, hrt, hR, if_false, axiosPost]
  cases env.refreshEndpoint w.refreshPosts.length (refreshRequest env R) with
  | none => rfl
  | some r => cases hv : validateStatus r.status <;> simp [hv, refreshFailed]

/-- Without a stored refresh token the refresh throws before any post. -/
theorem refreshAccessToken_of_absent (env : Env) (w : World)
    (habsent : w.store.refreshToken = none ∨ w.store.refreshToken = some "") :
    refreshAccessToken env w
      = (.error (.error "No refresh token available"),
          { w with
            refreshCalls := w.refreshCalls + 1
            store := { token := none, refreshToken := none, username := none }
            location := w.location ++ ["/login"] }) := by
  rcases habsent with h | h <;> simp [refreshAccessToken, h, refreshFailed]

/-- Prefixing two different tokens with "Bearer " gives two different header values. -/
theorem bearer_ne (a b : String) (h : a ≠ b) : "Bearer " ++ a ≠ "Bearer " ++ b := by
  intro heq
  apply h
  have hd := congrArg String.data heq
  simp only [String.data_append, List.append_cancel_left_eq] at hd
  exact String.ext hd

/-- A refresh whose post gets no response, or a response that is not 2xx, throws
the axios error of that post after clearing the store and assigning the location. -/
theorem refreshAccessToken_of_rejection (env : Env) (w : World) (R : String)
    (hrt : w.store.refreshToken = some R) (hR : R ≠ "")
    (hrej : ∀ r, env.refreshEndpoint w.refreshPosts.length (refreshRequest env R) = some r →
      validateStatus r.status = false) :
    refreshAccessToken env w
      = (.error (.axiosError (refreshRequest env R)
            (env.refreshEndpoint w.refreshPosts.length (refreshRequest env R))),
          { w with
            refreshCalls := w.refreshCalls + 1
            refreshPosts := w.refreshPosts ++ [refreshRequest env R]
            store := { token := none, refreshToken := none, username := none }
            location := w.location ++ ["/login"] }) := by
  cases hans : env.refreshEndpoint w.refreshPosts.length (refreshRequest env R) with
  | none => simp [refreshAccessToken, hrt, hR, axiosPost, hans, refreshFailed]
  | some r =>
    have hv := hrej r hans
    simp [refreshAccessToken, hrt, hR, axiosPost, hans, hv, refreshFailed]

/-- The two ways a refresh ends: it throws, the store is then empty, or it returns
a token; either way nothing was handed to the backend. -/
theorem refreshAccessToken_cases (env : Env) (w : World) :
    (∃ e w', refreshAccessToken env w = (.error e, w')
        ∧ w'.store = { token := none, refreshToken := none, username := none }
        ∧ w'.sent = w.sent)
      ∨ ∃ token w', refreshAccessToken env w = (.ok token, w') ∧ w'.sent = w.sent := by
  cases hrt : w.store.refreshToken with
  | none =>
    exact Or.inl ⟨_, _, refreshAccessToken_of_absent env w (Or.inl hrt), rfl, rfl⟩
  | some R =>
    by_cases hR : R = ""
    · subst hR
      exact Or.inl ⟨_, _, refreshAccessToken_of_absent env w (Or.inr hrt), rfl, rfl⟩
    · cases hans : env.refreshEndpoint w.refreshPosts.length (refreshRequest env R) with
      | none =>
        refine Or.inl ⟨_, _, refreshAccessToken_of_rejection env w R hrt hR ?_, rfl, rfl⟩
        intro r hr
        rw [hans] at hr
        cases hr
      | some r =>
        cases hv : validateStatus r.status
        · refine Or.inl ⟨_, _, refreshAccessToken_of_rejection env w R hrt hR ?_, rfl, rfl⟩
          intro r' hr
          rw [hans] at hr
          cases hr
          exact hv
        · exact Or.inr ⟨_, _, refreshAccessToken_of_answer env w R r hrt hR hans hv, rfl⟩

/-- A refresh hands nothing to the backend. -/
theorem refreshAccessToken_sent (env : Env) (w w1 : World) (res : Except JsError JsVal)
    (h : refreshAccessToken env w = (res, w1)) : w1.sent = w.sent := by
  rcases refreshAccessToken_cases env w with ⟨e, w', href, -, hsent⟩ | ⟨tok, w', href, hsent⟩
  · rw [h] at href
    cases href
    exact hsent
  · rw [h] at href
    cases href
    exact hsent

/-- The time check changes nothing but the count of clock reads. -/
theorem isTokenExpiringSoon_frame (env : Env) (w : World) (token : String) :
    (isTokenExpiringSoon env w token).2.sent = w.sent
      ∧ (isTokenExpiringSoon env w token).2.store = w.store := by
  unfold isTokenExpiringSoon
  cases env.jwtDecode token with
  | none => exact ⟨rfl, rfl⟩
  | some exp => cases exp <;> exact ⟨rfl, rfl⟩

/-- The `_retry` flag survives the assignment of the Authorization header. -/
theorem setAuthorization_retry (config : Request) (value : String) :
    (config.setAuthorization value)._retry = config._retry := rfl

/-- The two ways the request interceptor ends: it rejects, the store is then
empty, or it returns the request with the `_retry` flag it had; either way nothing
was handed to the backend. -/
theorem requestInterceptor_cases (env : Env) (w : World) (config : Request) :
    (∃ e w', requestInterceptor env w config = (.error e, w')
        ∧ w'.store = { token := none, refreshToken := none, username := none }
        ∧ w'.sent = w.sent)
      ∨ ∃ c w', requestInterceptor env w config = (.ok c, w')
        ∧ c._retry = config._retry ∧ w'.sent = w.sent := by
  cases htok : w.store.token with
  | none => exact Or.inr ⟨config, w, by simp [requestInterceptor, htok], rfl, rfl⟩
  | some token =>
    by_cases hne : token = ""
    · exact Or.inr ⟨config, w, by simp [requestInterceptor, htok, hne], rfl, rfl⟩
    · have hframe := (isTokenExpiringSoon_frame env w token).1
      rcases hsoon : isTokenExpiringSoon env w token with ⟨b, w1⟩
      rw [hsoon] at hframe
      cases b
      · exact Or.inr ⟨config.setAuthorization ("Bearer " ++ token), w1,
          by simp [requestInterceptor, htok, hne, hsoon], rfl, hframe⟩
      · rcases refreshAccessToken_cases env w1 with ⟨e, w2, href, hstore, hsent⟩ |
          ⟨tok, w2, href, hsent⟩
        · exact Or.inl ⟨e, w2, by simp [requestInterceptor, htok, hne, hsoon, href], hstore,
            hsent.trans hframe⟩
        · cases htr : tok.truthy
          · exact Or.inr ⟨config, w2,
              by simp [requestInterceptor, htok, hne, hsoon, href, htr], rfl,
              hsent.trans hframe⟩
          · exact Or.inr ⟨config.setAuthorization ("Bearer " ++ tok.toStr), w2,
              by simp [requestInterceptor, htok, hne, hsoon, href, htr], rfl,
              hsent.trans hframe⟩

/-- The request interceptor hands nothing to the backend. -/
theorem requestInterceptor_sent (env : Env) (w w1 : World) (config : Request)
    (res : Except JsError Request) (h : requestInterceptor env w config = (res, w1)) :
    w1.sent = w.sent := by
  rcases requestInterceptor_cases env w config with ⟨e, w', hri, -, hsent⟩ |
    ⟨c, w', hri, -, hsent⟩
  · rw [h] at hri
    cases hri
    exact hsent
  · rw [h] at hri
    cases hri
    exact hsent

/-- The request interceptor returns the request with the `_retry` flag it had. -/
theorem requestInterceptor_retry (env : Env) (w w1 : World) (config c1 : Request)
    (h : requestInterceptor env w config = (.ok c1, w1)) : c1._retry = config._retry := by
  rcases requestInterceptor_cases env w config with ⟨e, w', hri, -, -⟩ | ⟨c, w', hri, hc, -⟩
  · rw [h] at hri
    cases hri
  · rw [h] at hri
    cases hri
    exact hc

/-! ## Lemmas on the response interceptor and the chain -/

/-- One call of `API` spends one unit of fuel and leaves the rest to the resend. -/
theorem API_succ (env : Env) (fuel : Nat) (w : World) (config : Request) :
    API env (fuel + 1) w config
      = match requestInterceptor env w config with
        | (.error e, w1) => responseInterceptorRejected (API env fuel) env w1 e
        | (.ok config1, w1) =>
          match dispatchRequest env w1 config1 with
          | (.ok response, w2) => some (.ok response, w2)
          | (.error e, w2) => responseInterceptorRejected (API env fuel) env w2 e := rfl

/-- An error without a response is rejected unchanged. -/
theorem responseInterceptorRejected_of_no_response
    (resend : World → Request → Option (Except JsError Response × World))
    (env : Env) (w : World) (error : JsError) (hnone : error.response = none) :
    responseInterceptorRejected resend env w error = some (.error error, w) := by
  cases error with
  | error message => rfl
  | axiosError cfg resp =>
    cases resp with
    | none => rfl
    | some r => simp [JsError.response] at hnone

/-- An error whose status is not 401, or whose request has the `_retry` flag set,
is rejected unchanged, after the rate-limit notice when the status is 429. -/
theorem responseInterceptorRejected_of_not_retried
    (resend : World → Request → Option (Except JsError Response × World))
    (env : Env) (w : World) (cfg : Request) (r : Response)
    (hc : ¬ (r.status = 401 ∧ cfg._retry = false)) :
    responseInterceptorRejected resend env w (.axiosError cfg (some r))
      = some (.error (.axiosError cfg (some r)),
          if r.status = 429 then { w with alerts := w.alerts ++ [rateLimitNotice] } else w) := by
  by_cases h429 : r.status = 429
  · simp [responseInterceptorRejected, hc, h429]
  · simp [responseInterceptorRejected, hc, h429]

/-- On a 401 of a request without the `_retry` flag the handler refreshes; when
the refresh throws, the handler rejects with what the refresh threw. -/
theorem responseInterceptorRejected_of_refresh_error
    (resend : World → Request → Option (Except JsError Response × World))
    (env : Env) (w w1 : World) (cfg : Request) (r : Response) (e : JsError)
    (hc : r.status = 401 ∧ cfg._retry = false)
    (href : refreshAccessToken env w = (.error e, w1)) :
    responseInterceptorRejected resend env w (.axiosError cfg (some r))
      = some (.error e, w1) := by
  simp [responseInterceptorRejected, hc, href]

/-- On a 401 of a request without the `_retry` flag the handler refreshes; when
the refresh returns, the handler sets the flag and the header and resends. -/
theorem responseInterceptorRejected_of_refresh_ok
    (resend : World → Request → Option (Except JsError Response × World))
    (env : Env) (w w1 : World) (cfg : Request) (r : Response) (token : JsVal)
    (hc : r.status = 401 ∧ cfg._retry = false)
    (href : refreshAccessToken env w = (.ok token, w1)) :
    responseInterceptorRejected resend env w (.axiosError cfg (some r))
      = resend w1
          (Request.setAuthorization { cfg with _retry := true } ("Bearer " ++ token.toStr)) := by
  simp [responseInterceptorRejected, hc, href]

/-- With no refresh token in the store the error handler never resends: it
rejects, having handed nothing to the backend. -/
theorem responseInterceptorRejected_of_absent
    (resend : World → Request → Option (Except JsError Response × World))
    (env : Env) (w : World) (error : JsError) (habsent : w.store.refreshToken = none) :
    ∃ e w', responseInterceptorRejected resend env w error = some (.error e, w')
      ∧ w'.sent = w.sent := by
  cases error with
  | error message =>
    exact ⟨_, _, responseInterceptorRejected_of_no_response resend env w _ rfl, rfl⟩
  | axiosError cfg resp =>
    cases resp with
    | none => exact ⟨_, _, responseInterceptorRejected_of_no_response resend env w _ rfl, rfl⟩
    | some r =>
      by_cases hc : r.status = 401 ∧ cfg._retry = false
      · exact ⟨_, _, responseInterceptorRejected_of_refresh_error resend env w _ cfg r _ hc
          (refreshAccessToken_of_absent env w (Or.inl habsent)), rfl⟩
      · refine ⟨_, _, responseInterceptorRejected_of_not_retried resend env w cfg r hc, ?_⟩
        split <;> rfl

/-- An error of a request whose `_retry` flag is set is rejected unchanged, with
nothing handed to the backend. -/
theorem responseInterceptorRejected_of_retry
    (resend : World → Request → Option (Except JsError Response × World))
    (env : Env) (w : World) (cfg : Request) (resp : Option Response)
    (hretry : cfg._retry = true) :
    ∃ w', responseInterceptorRejected resend env w (.axiosError cfg resp)
        = some (.error (.axiosError cfg resp), w')
      ∧ w'.sent = w.sent := by
  cases resp with
  | none => exact ⟨_, responseInterceptorRejected_of_no_response resend env w _ rfl, rfl⟩
  | some r =>
    refine ⟨_, responseInterceptorRejected_of_not_retried resend env w cfg r ?_, ?_⟩
    · simp [hretry]
    · split <;> rfl

/-- If every resend of a request with the `_retry` flag set returns after at most
one more request to the backend, so does the error handler. -/
theorem responseInterceptorRejected_returns
    (resend : World → Request → Option (Except JsError Response × World))
    (env : Env) (w : World) (error : JsError)
    (hresend : ∀ w0 cfg, cfg._retry = true →
      ∃ res w', resend w0 cfg = some (res, w') ∧ w'.sent.length ≤ w0.sent.length + 1) :
    ∃ res w', responseInterceptorRejected resend env w error = some (res, w')
      ∧ w'.sent.length ≤ w.sent.length + 1 := by
  cases error with
  | error message =>
    exact ⟨_, _, responseInterceptorRejected_of_no_response resend env w _ rfl, by omega⟩
  | axiosError cfg resp =>
    cases resp with
    | none =>
      exact ⟨_, _, responseInterceptorRejected_of_no_response resend env w _ rfl, by omega⟩
    | some r =>
      by_cases hc : r.status = 401 ∧ cfg._retry = false
      · rcases refreshAccessToken_cases env w with ⟨e, w1, href, -, hsent⟩ |
          ⟨tok, w1, href, hsent⟩
        · exact ⟨_, _, responseInterceptorRejected_of_refresh_error resend env w w1 cfg r e hc
            href, by rw [hsent]; omega⟩
        · obtain ⟨res, w2, hres, hlen⟩ := hresend w1
            (Request.setAuthorization { cfg with _retry := true } ("Bearer " ++ tok.toStr)) rfl
          refine ⟨res, w2, ?_, by rw [hsent] at hlen; exact hlen⟩
          rw [responseInterceptorRejected_of_refresh_ok resend env w w1 cfg r tok hc href]
          exact hres
      · refine ⟨_, _, responseInterceptorRejected_of_not_retried resend env w cfg r hc, ?_⟩
        split <;> simp

/-- A request handed to the backend is logged, and an error of the dispatch is
the axios error of that very request. -/
theorem dispatchRequest_cases (env : Env) (w : World) (config : Request) :
    (∃ r, dispatchRequest env w config = (.ok r, { w with sent := w.sent ++ [config] }))
      ∨ ∃ resp, dispatchRequest env w config
        = (.error (.axiosError config resp), { w with sent := w.sent ++ [config] }) := by
  unfold dispatchRequest
  cases env.backend w.sent.length config with
  | none => exact Or.inr ⟨none, rfl⟩
  | some r =>
    cases hv : validateStatus r.status
    · exact Or.inr ⟨some r, by simp [hv]⟩
    · exact Or.inl ⟨r, by simp [hv]⟩

/-- A call of `API` on a request whose `_retry` flag is set returns with any fuel
but zero, after at most one request to the backend. -/
theorem API_of_retry (env : Env) (fuel : Nat) (w : World) (config : Request)
    (hretry : config._retry = true) :
    ∃ res w', API env (fuel + 1) w config = some (res, w')
      ∧ w'.sent.length ≤ w.sent.length + 1 := by
  rcases requestInterceptor_cases env w config with ⟨e, w1, hri, hstore, hsent⟩ |
    ⟨c1, w1, hri, hc1, hsent⟩
  · obtain ⟨e', w2, hh, hsent2⟩ := responseInterceptorRejected_of_absent (API env fuel) env w1 e
      (by rw [hstore])
    have hrun : API env (fuel + 1) w config = some (.error e', w2) := by
      simp [API, hri, hh]
    exact ⟨_, _, hrun, by rw [hsent2, hsent]; omega⟩
  · rcases dispatchRequest_cases env w1 c1 with ⟨r, hd⟩ | ⟨resp, hd⟩
    · have hrun : API env (fuel + 1) w config
          = some (.ok r, { w1 with sent := w1.sent ++ [c1] }) := by
        simp [API, hri, hd]
      exact ⟨_, _, hrun, by simp [hsent]⟩
    · obtain ⟨w3, hh, hsent3⟩ := responseInterceptorRejected_of_retry (API env fuel) env
        { w1 with sent := w1.sent ++ [c1] } c1 resp (by rw [hc1, hretry])
      have hrun : API env (fuel + 1) w config = some (.error (.axiosError c1 resp), w3) := by
        simp [API, hri, hd, hh]
      exact ⟨_, _, hrun, by rw [hsent3]; simp [hsent]⟩

/-! ## The request interceptor -/

/-- C1: when the stored access token decodes to an expiry more than 60 seconds
after the current time, the request interceptor returns the request with the
Authorization header set to "Bearer " followed by the stored token, calls neither
`refreshAccessToken` nor the token-refresh endpoint, and leaves the credential store
as it was. -/
theorem requestInterceptor_fresh_token (env : Env) (w : World) (config : Request)
    (token : String) (exp : Int)
    (hstored : w.store.token = some token) (hne : token ≠ "")
    (hdec : env.jwtDecode token = some (some exp))
    (hfresh : exp * 1000 - (env.now w.clockReads : Int) > 60000) :
    (requestInterceptor env w config).1
        = .ok (config.setAuthorization ("Bearer " ++ token))
      ∧ getHeader (config.setAuthorization ("Bearer " ++ token)).headers "Authorization"
        = some ("Bearer " ++ token)
      ∧ (requestInterceptor env w config).2.refreshCalls = w.refreshCalls
      ∧ (requestInterceptor env w config).2.refreshPosts = w.refreshPosts
      ∧ (requestInterceptor env w config).2.location = w.location
      ∧ (requestInterceptor env w config).2.store = w.store := by
  have hnot : ¬ (exp * 1000 - (env.now w.clockReads : Int) < 60000) := by omega
  have hsoon : isTokenExpiringSoon env w token
      = (false, { w with clockReads := w.clockReads + 1 }) := by
    simp [isTokenExpiringSoon, hdec, hnot]
  have hrun : requestInterceptor env w config
      = (.ok (config.setAuthorization ("Bearer " ++ token)),
          { w with clockReads := w.clockReads + 1 }) := by
    simp [requestInterceptor, hstored, hne, hsoon]
  rw [hrun]
  exact ⟨rfl, getHeader_setHeader _ _ _, rfl, rfl, rfl, rfl⟩

/-- C1 at a sample input: the token "fresh" expires at 2000 s, the clock reads 1000 s. -/
theorem requestInterceptor_fresh_token_witness :
    (requestInterceptor sampleEnv
        (worldOf { token := some "fresh", refreshToken := some "R1", username := some "u" })
        sampleRequest).1
      = .ok (sampleRequest.setAuthorization ("Bearer " ++ "fresh"))
    ∧ (requestInterceptor sampleEnv
        (worldOf { token := some "fresh", refreshToken := some "R1", username := some "u" })
        sampleRequest).2.refreshCalls = 0 :=
  have h := requestInterceptor_fresh_token sampleEnv
    (worldOf { token := some "fresh", refreshToken := some "R1", username := some "u" })
    sampleRequest "fresh" 2000 rfl (by decide) (by decide) (by decide)
  ⟨h.1, h.2.2.1⟩

/-- C3: when no access token is stored (the key is absent or holds the empty
string), the request interceptor returns the request exactly as it received it, so
with no Authorization header added, and changes nothing in the world: no refresh
call, no change of the credential store. -/
theorem requestInterceptor_no_token (env : Env) (w : World) (config : Request)
    (habsent : w.store.token = none ∨ w.store.token = some "") :
    requestInterceptor env w config = (.ok config, w) := by
  rcases habsent with h | h <;> simp [requestInterceptor, h]

/-- C3 at a sample input: an empty credential store. -/
theorem requestInterceptor_no_token_witness :
    requestInterceptor sampleEnv
        (worldOf { token := none, refreshToken := none, username := none }) sampleRequest
      = (.ok sampleRequest,
          worldOf { token := none, refreshToken := none, username := none }) :=
  requestInterceptor_no_token sampleEnv _ sampleRequest (Or.inl rfl)

/-- C2: when the stored access token cannot be decoded or expires less than 60
seconds after the current time, and the refresh succeeds (a non-empty refresh token
is stored and the endpoint answers 2xx with the access token `A2`), the request
interceptor calls `refreshAccessToken` exactly once, which posts once to the
endpoint, and returns the request with the Authorization header "Bearer " followed
by `A2`, which differs from the header of the stale token whenever `A2` does. -/
theorem requestInterceptor_expiring_token (env : Env) (w : World) (config : Request)
    (token R1 A2 : String) (r : Response)
    (hstored : w.store.token = some token) (hne : token ≠ "")
    (hsoon : env.jwtDecode token = none ∨
      ∃ exp, env.jwtDecode token = some (some exp) ∧
        exp * 1000 - (env.now w.clockReads : Int) < 60000)
    (hrt : w.store.refreshToken = some R1) (hR1 : R1 ≠ "")
    (hanswer : env.refreshEndpoint w.refreshPosts.length (refreshRequest env R1) = some r)
    (hstatus : validateStatus r.status = true)
    (haccess : JsVal.field r.data "access" = .str A2) (hA2 : A2 ≠ "") :
    (requestInterceptor env w config).1
        = .ok (config.setAuthorization ("Bearer " ++ A2))
      ∧ getHeader (config.setAuthorization ("Bearer " ++ A2)).headers "Authorization"
        = some ("Bearer " ++ A2)
      ∧ (A2 ≠ token → "Bearer " ++ A2 ≠ "Bearer " ++ token)
      ∧ (requestInterceptor env w config).2.refreshCalls = w.refreshCalls + 1
      ∧ (requestInterceptor env w config).2.refreshPosts
        = w.refreshPosts ++ [refreshRequest env R1]
      ∧ (requestInterceptor env w config).2.store.token = some A2 := by
  obtain ⟨w1, hw1, hstore1, hposts1, hcalls1⟩ :
      ∃ w1, isTokenExpiringSoon env w token = (true, w1) ∧ w1.store = w.store
        ∧ w1.refreshPosts = w.refreshPosts ∧ w1.refreshCalls = w.refreshCalls := by
    rcases hsoon with hd | ⟨exp, hd, hlt⟩
    · exact ⟨w, by simp [isTokenExpiringSoon, hd], rfl, rfl, rfl⟩
    · exact ⟨{ w with clockReads := w.clockReads + 1 },
        by simp [isTokenExpiringSoon, hd, hlt], rfl, rfl, rfl⟩
  have hrefresh := refreshAccessToken_of_answer env w1 R1 r (by rw [hstore1]; exact hrt) hR1
    (by rw [hposts1]; exact hanswer) hstatus
  have htruthy : (JsVal.str A2).truthy = true := by simp [JsVal.truthy, hA2]
  have hrun : requestInterceptor env w config
      = (.ok (config.setAuthorization ("Bearer " ++ A2)),
          { w1 with
            refreshCalls := w1.refreshCalls + 1
            refreshPosts := w1.refreshPosts ++ [refreshRequest env R1]
            store :=
              { token := some A2
                refreshToken := some (JsVal.field r.data "refresh").toStr
                username := w1.store.username } }) := by
    simp [requestInterceptor, hstored, hne, hw1, hrefresh, haccess, htruthy, JsVal.toStr]
  rw [hrun]
  refine ⟨rfl, getHeader_setHeader _ _ _, bearer_ne _ _, ?_, ?_, rfl⟩
  · simp [hcalls1]
  · simp [hposts1]

/-- C2 at a sample input: the token "stale" expires 30 s after the clock, the
endpoint answers with the pair `A2`, `R2`. -/
theorem requestInterceptor_expiring_token_witness :
    (requestInterceptor sampleEnv
        (worldOf { token := some "stale", refreshToken := some "R1", username := some "u" })
        sampleRequest).1
      = .ok (sampleRequest.setAuthorization ("Bearer " ++ "A2"))
    ∧ (requestInterceptor sampleEnv
        (worldOf { token := some "stale", refreshToken := some "R1", username := some "u" })
        sampleRequest).2.refreshCalls = 0 + 1 :=
  have h := requestInterceptor_expiring_token sampleEnv
    (worldOf { token := some "stale", refreshToken := some "R1", username := some "u" })
    sampleRequest "stale" "R1" "A2"
    { status := 200, data := [("access", .str "A2"), ("refresh", .str "R2")] }
    rfl (by decide) (Or.inr ⟨1030, by decide, by decide⟩) rfl (by decide) rfl (by decide)
    (by decide) (by decide)
  ⟨h.1, h.2.2.2.1⟩

/-! ## The refresh -/

/-- C5: if a (non-empty) refresh token `R1` is stored and the token-refresh
endpoint answers 2xx with access `A2` and a (non-empty) refresh token `R2`, then
`refreshAccessToken` returns `A2` after posting `R1` once, leaves the store with
token `A2`, refreshToken `R2` and the username it had, and the next call of
`refreshAccessToken` posts `R2` as the `refresh` field of its body, which is not
`R1` when the endpoint rotated the token. -/
theorem refreshAccessToken_rotation (env : Env) (w : World) (R1 A2 R2 : String)
    (r : Response)
    (hrt : w.store.refreshToken = some R1) (hR1 : R1 ≠ "")
    (hanswer : env.refreshEndpoint w.refreshPosts.length (refreshRequest env R1) = some r)
    (hstatus : validateStatus r.status = true)
    (haccess : JsVal.field r.data "access" = .str A2)
    (hrefresh : JsVal.field r.data "refresh" = .str R2) (hR2 : R2 ≠ "") :
    (refreshAccessToken env w).1 = .ok (.str A2)
      ∧ (refreshAccessToken env w).2.store
        = { token := some A2, refreshToken := some R2, username := w.store.username }
      ∧ (refreshAccessToken env w).2.refreshPosts = w.refreshPosts ++ [refreshRequest env R1]
      ∧ (refreshAccessToken env (refreshAccessToken env w).2).2.refreshPosts
        = w.refreshPosts ++ [refreshRequest env R1, refreshRequest env R2]
      ∧ JsVal.field (refreshRequest env R2).data "refresh" = .str R2
      ∧ (R1 ≠ R2 → JsVal.field (refreshRequest env R2).data "refresh" ≠ .str R1) := by
  have hfirst := refreshAccessToken_of_answer env w R1 r hrt hR1 hanswer hstatus
  rw [haccess, hrefresh] at hfirst
  have hnext := refreshAccessToken_posts env (refreshAccessToken env w).2 R2
    (by rw [hfirst]; rfl) hR2
  have hbody : JsVal.field (refreshRequest env R2).data "refresh" = .str R2 := by
    simp [JsVal.field, refreshRequest, List.lookup]
  refine ⟨by rw [hfirst], by rw [hfirst]; rfl, by rw [hfirst], ?_, hbody, ?_⟩
  · rw [hnext, hfirst]
    simp
  · intro hne heq
    rw [hbody] at heq
    exact hne (JsVal.str.inj heq).symm

/-- C5 at a sample input: `R1` is stored and the endpoint answers `A2`, `R2`. -/
theorem refreshAccessToken_rotation_witness :
    (refreshAccessToken sampleEnv
        (worldOf { token := some "stale", refreshToken := some "R1", username := some "u" })).2.store
      = { token := some "A2", refreshToken := some "R2", username := some "u" }
    ∧ (refreshAccessToken sampleEnv (refreshAccessToken sampleEnv
        (worldOf { token := some "stale", refreshToken := some "R1", username := some "u" })).2).2.refreshPosts
      = [] ++ [refreshRequest sampleEnv "R1", refreshRequest sampleEnv "R2"] :=
  have h := refreshAccessToken_rotation sampleEnv
    (worldOf { token := some "stale", refreshToken := some "R1", username := some "u" })
    "R1" "A2" "R2"
    { status := 200, data := [("access", .str "A2"), ("refresh", .str "R2")] }
    rfl (by decide) rfl (by decide) (by decide) (by decide) (by decide)
  ⟨h.2.1, h.2.2.2.1⟩

/-- C7: if no refresh token is stored (the key is absent or holds the empty
string), `refreshAccessToken` fails with the error "No refresh token available"
without posting anything to the token-refresh endpoint. -/
theorem refreshAccessToken_no_refresh_token (env : Env) (w : World)
    (habsent : w.store.refreshToken = none ∨ w.store.refreshToken = some "") :
    (refreshAccessToken env w).1 = .error (.error "No refresh token available")
      ∧ (refreshAccessToken env w).2.refreshPosts = w.refreshPosts := by
  rw [refreshAccessToken_of_absent env w habsent]
  exact ⟨rfl, rfl⟩

/-- C7 at a sample input: an access token is stored but the refresh token is the
empty string. -/
theorem refreshAccessToken_no_refresh_token_witness :
    (refreshAccessToken sampleEnv
        (worldOf { token := some "stale", refreshToken := some "", username := some "u" })).1
      = .error (.error "No refresh token available")
    ∧ (refreshAccessToken sampleEnv
        (worldOf { token := some "stale", refreshToken := some "", username := some "u" })).2.refreshPosts
      = [] :=
  refreshAccessToken_no_refresh_token sampleEnv
    (worldOf { token := some "stale", refreshToken := some "", username := some "u" })
    (Or.inr rfl)

/-! ## The response interceptor and the chain -/

/-- C8: if the request, whose `_retry` flag is unset, passes the request
interceptor and is answered with 401, the refresh of the error handler returns a
token, and the resent request passes the request interceptor and is answered with a
2xx response, then with any fuel from 2 on the call of `API` returns that second
response to the caller, and the backend has received exactly two requests more than
before: the first attempt and the one resend. -/
theorem API_retries_once (env : Env) (fuel : Nat) (w w1 w3 w4 : World)
    (config c1 c3 : Request) (r1 r2 : Response) (token : JsVal)
    (hfuel : 2 ≤ fuel)
    (hflag : config._retry = false)
    (hattach : requestInterceptor env w config = (.ok c1, w1))
    (hanswer : env.backend w1.sent.length c1 = some r1) (h401 : r1.status = 401)
    (hrefresh : refreshAccessToken env { w1 with sent := w1.sent ++ [c1] } = (.ok token, w3))
    (hattach2 : requestInterceptor env w3
        (Request.setAuthorization { c1 with _retry := true } ("Bearer " ++ token.toStr))
      = (.ok c3, w4))
    (hanswer2 : env.backend w4.sent.length c3 = some r2)
    (h2xx : validateStatus r2.status = true) :
    API env fuel w config = some (.ok r2, { w4 with sent := w.sent ++ [c1, c3] })
      ∧ (w.sent ++ [c1, c3]).length = w.sent.length + 2 := by
  obtain ⟨n, rfl⟩ : ∃ n, fuel = n + 2 := ⟨fuel - 2, by omega⟩
  have hc1 : c1._retry = false := by
    rw [requestInterceptor_retry env w w1 config c1 hattach, hflag]
  have hsent1 : w1.sent = w.sent := requestInterceptor_sent env w w1 config _ hattach
  have hsent3 : w3.sent = w1.sent ++ [c1] := refreshAccessToken_sent env _ w3 _ hrefresh
  have hsent4 : w4.sent = w3.sent := requestInterceptor_sent env w3 w4 _ _ hattach2
  have hinvalid : validateStatus r1.status = false := by
    rw [h401]
    decide
  have hfirst : dispatchRequest env w1 c1
      = (.error (.axiosError c1 (some r1)), { w1 with sent := w1.sent ++ [c1] }) := by
    simp [dispatchRequest, hanswer, hinvalid]
  have hsecond : dispatchRequest env w4 c3 = (.ok r2, { w4 with sent := w4.sent ++ [c3] }) := by
    simp [dispatchRequest, hanswer2, h2xx]
  have hresend : API env (n + 1) w3
      (Request.setAuthorization { c1 with _retry := true } ("Bearer " ++ token.toStr))
      = some (.ok r2, { w4 with sent := w4.sent ++ [c3] }) := by
    rw [API_succ, hattach2]
    simp only [hsecond]
  have hrun : API env (n + 2) w config = some (.ok r2, { w4 with sent := w4.sent ++ [c3] }) := by
    rw [API_succ, hattach]
    simp only [hfirst]
    rw [responseInterceptorRejected_of_refresh_ok (API env (n + 1)) env _ w3 c1 r1 token
      ⟨h401, hc1⟩ hrefresh]
    exact hresend
  have hlog : w4.sent ++ [c3] = w.sent ++ [c1, c3] := by
    rw [hsent4, hsent3, hsent1]
    simp
  rw [hrun, hlog]
  exact ⟨rfl, by simp⟩

/-- C8 at a sample input: the backend answers the first request with 401 and the
resent one with 200. -/
theorem API_retries_once_witness :
    API expiredOnceEnv 2 (worldOf freshStore) sampleRequest
      = some (.ok { status := 200, data := [("count", .num 3)] },
          { store := { token := some "A2", refreshToken := some "R2", username := some "u" }
            clockReads := 2
            refreshCalls := 1
            refreshPosts := [refreshRequest expiredOnceEnv "R1"]
            sent := [] ++ [sampleRequest.setAuthorization "Bearer fresh",
              Request.setAuthorization { sampleRequest with _retry := true } "Bearer A2"]
            location := []
            alerts := [] }) :=
  (API_retries_once expiredOnceEnv 2 (worldOf freshStore)
    { worldOf freshStore with clockReads := 1 }
    { store := { token := some "A2", refreshToken := some "R2", username := some "u" }
      clockReads := 1
      refreshCalls := 1
      refreshPosts := [refreshRequest expiredOnceEnv "R1"]
      sent := [sampleRequest.setAuthorization "Bearer fresh"]
      location := []
      alerts := [] }
    { store := { token := some "A2", refreshToken := some "R2", username := some "u" }
      clockReads := 2
      refreshCalls := 1
      refreshPosts := [refreshRequest expiredOnceEnv "R1"]
      sent := [sampleRequest.setAuthorization "Bearer fresh"]
      location := []
      alerts := [] }
    sampleRequest (sampleRequest.setAuthorization "Bearer fresh")
    (Request.setAuthorization { sampleRequest with _retry := true } "Bearer A2")
    { status := 401, data := [] } { status := 200, data := [("count", .num 3)] } (.str "A2")
    (by decide) rfl rfl rfl rfl rfl rfl rfl rfl).1

/-- C9: whatever the backend, the token-refresh endpoint, the decoder and the
clock do, a call of `API` with any fuel from 2 on returns, and the backend has then
received at most two requests more than before. A 401 on a request whose `_retry`
flag is set makes the error handler reject with that same error and change nothing,
whatever a resend would do: no refresh, no resend. -/
theorem API_terminates (env : Env) (fuel : Nat) (w : World) (config : Request)
    (hfuel : 2 ≤ fuel) :
    (∃ res w', API env fuel w config = some (res, w')
        ∧ w'.sent.length ≤ w.sent.length + 2)
      ∧ ∀ (resend : World → Request → Option (Except JsError Response × World))
          (w0 : World) (cfg : Request) (r : Response),
          r.status = 401 → cfg._retry = true →
            responseInterceptorRejected resend env w0 (.axiosError cfg (some r))
              = some (.error (.axiosError cfg (some r)), w0) := by
  obtain ⟨n, rfl⟩ : ∃ n, fuel = n + 2 := ⟨fuel - 2, by omega⟩
  constructor
  · rcases requestInterceptor_cases env w config with ⟨e, w1, hri, hstore, hsent⟩ |
      ⟨c1, w1, hri, -, hsent⟩
    · obtain ⟨e', w2, hh, hsent2⟩ :=
        responseInterceptorRejected_of_absent (API env (n + 1)) env w1 e (by rw [hstore])
      refine ⟨.error e', w2, ?_, by rw [hsent2, hsent]; omega⟩
      rw [API_succ, hri]
      exact hh
    · rcases dispatchRequest_cases env w1 c1 with ⟨r, hd⟩ | ⟨resp, hd⟩
      · refine ⟨.ok r, { w1 with sent := w1.sent ++ [c1] }, ?_, by simp [hsent]⟩
        rw [API_succ, hri]
        simp only [hd]
      · obtain ⟨res, w3, hh, hlen⟩ := responseInterceptorRejected_returns (API env (n + 1)) env
          { w1 with sent := w1.sent ++ [c1] } (.axiosError c1 resp)
          (fun w0 cfg hcfg => API_of_retry env n w0 cfg hcfg)
        refine ⟨res, w3, ?_, ?_⟩
        · rw [API_succ, hri]
          simp only [hd]
          exact hh
        · simp only [List.length_append, List.length_singleton, hsent] at hlen
          omega
  · intro resend w0 cfg r h401 hretry
    rw [responseInterceptorRejected_of_not_retried resend env w0 cfg r (by simp [hretry])]
    simp [h401]

/-- C9 at a sample input: a backend that answers 401 to every attempt. -/
theorem API_terminates_witness :
    ∃ res w', API unauthorizedEnv 2 (worldOf freshStore) sampleRequest = some (res, w')
      ∧ w'.sent.length ≤ (worldOf freshStore).sent.length + 2 :=
  (API_terminates unauthorizedEnv 2 (worldOf freshStore) sampleRequest (by decide)).1

/-- C10: on an error whose response has status 429 the error handler rejects with
the error it received after adding the rate-limit notice to the alerts; nothing
else changes, whatever a resend would do: no refresh call, no request to the
endpoint or to the backend, the same credential store, no redirect. -/
theorem responseInterceptorRejected_rate_limited
    (resend : World → Request → Option (Except JsError Response × World))
    (env : Env) (w : World) (error : JsError) (r : Response)
    (hresponse : error.response = some r) (h429 : r.status = 429) :
    responseInterceptorRejected resend env w error
        = some (.error error, { w with alerts := w.alerts ++ [rateLimitNotice] })
      ∧ ({ w with alerts := w.alerts ++ [rateLimitNotice] } : World).refreshCalls
        = w.refreshCalls
      ∧ ({ w with alerts := w.alerts ++ [rateLimitNotice] } : World).sent = w.sent
      ∧ ({ w with alerts := w.alerts ++ [rateLimitNotice] } : World).store = w.store := by
  cases error with
  | error message => simp [JsError.response] at hresponse
  | axiosError cfg resp =>
    simp only [JsError.response] at hresponse
    subst hresponse
    rw [responseInterceptorRejected_of_not_retried resend env w cfg r (by simp [h429])]
    simp [h429]

/-- C10 at a sample input: a 429 answer to the sample request. -/
theorem responseInterceptorRejected_rate_limited_witness :
    responseInterceptorRejected (API sampleEnv 1) sampleEnv (worldOf freshStore)
        (.axiosError sampleRequest (some { status := 429, data := [] }))
      = some (.error (.axiosError sampleRequest (some { status := 429, data := [] })),
          { worldOf freshStore with alerts := [] ++ [rateLimitNotice] }) :=
  (responseInterceptorRejected_rate_limited (API sampleEnv 1) sampleEnv (worldOf freshStore)
    (.axiosError sampleRequest (some { status := 429, data := [] }))
    { status := 429, data := [] } rfl rfl).1

/-! ## A refresh rejected with 401 inside the request interceptor -/

/-- C4 at the failing input: the stored token is expiring, the endpoint rejects
the refresh token with 401. The refresh of the request interceptor throws the axios
error of its post; the caller of `API` gets the error "No refresh token available",
thrown by a second refresh that the error handler of the response interceptor
started on that axios error. Nothing was handed to the backend. -/
theorem API_refresh_401_other_error (fuel : Nat) :
    (refreshAccessToken rejectingEnv
        (isTokenExpiringSoon rejectingEnv (worldOf staleStore) "stale").2).1
      = .error (.axiosError (refreshRequest rejectingEnv "R1")
          (some { status := 401, data := [("detail", .str "Token is invalid or expired")] }))
    ∧ (API rejectingEnv (fuel + 1) (worldOf staleStore) sampleRequest).map (fun p => p.1)
      = some (.error (.error "No refresh token available"))
    ∧ (API rejectingEnv (fuel + 1) (worldOf staleStore) sampleRequest).map (fun p => p.2.sent)
      = some [] :=
  ⟨rfl, rfl, rfl⟩

/-- C6 at the failing input: the stored token is expiring, the endpoint rejects
the refresh token with 401. When the call of `API` has returned the store is empty,
but `refreshAccessToken` ran twice and the location was assigned twice. -/
theorem API_refresh_401_two_redirects (fuel : Nat) :
    (API rejectingEnv (fuel + 1) (worldOf staleStore) sampleRequest).map (fun p => p.2)
      = some
        { store := { token := none, refreshToken := none, username := none }
          clockReads := 1
          refreshCalls := 2
          refreshPosts := [refreshRequest rejectingEnv "R1"]
          sent := []
          location := ["/login", "/login"]
          alerts := [] } :=
  rfl

/-! ## Errors that pass through -/

/-- C11: an error that has no response, or whose response has a status other
than 401 and 429, is rejected by the error handler exactly as received, and the
world is left as it was, whatever a resend would do: no refresh, no resend, no
rate-limit notice, no change of the credential store. -/
theorem responseInterceptorRejected_passes_through
    (resend : World → Request → Option (Except JsError Response × World))
    (env : Env) (w : World) (error : JsError)
    (hother : error.response = none ∨
      ∃ r, error.response = some r ∧ r.status ≠ 401 ∧ r.status ≠ 429) :
    responseInterceptorRejected resend env w error = some (.error error, w) := by
  rcases hother with hnone | ⟨r, hr, h401, h429⟩
  · exact responseInterceptorRejected_of_no_response resend env w error hnone
  · cases error with
    | error message => simp [JsError.response] at hr
    | axiosError cfg resp =>
      simp only [JsError.response] at hr
      subst hr
      rw [responseInterceptorRejected_of_not_retried resend env w cfg r (by simp [h401])]
      simp [h429]

/-- C11 at a sample input: a 500 answer to the sample request. -/
theorem responseInterceptorRejected_passes_through_witness :
    responseInterceptorRejected (API sampleEnv 1) sampleEnv (worldOf freshStore)
        (.axiosError sampleRequest (some { status := 500, data := [] }))
      = some (.error (.axiosError sampleRequest (some { status := 500, data := [] })),
          worldOf freshStore) :=
  responseInterceptorRejected_passes_through (API sampleEnv 1) sampleEnv (worldOf freshStore)
    (.axiosError sampleRequest (some { status := 500, data := [] }))
    (Or.inr ⟨{ status := 500, data := [] }, rfl, by decide, by decide⟩)

/-! ## Credentials are only lost in a failed refresh -/

/-- Keeping the keys is reflexive. -/
theorem keysKept_refl (s : Store) : keysKept s s :=
  ⟨id, id, id⟩

/-- Keeping the keys is transitive. -/
theorem keysKept_trans (s s1 s2 : Store) (h : keysKept s s1) (h' : keysKept s1 s2) :
    keysKept s s2 :=
  ⟨fun x => h'.1 (h.1 x), fun x => h'.2.1 (h.2.1 x), fun x => h'.2.2 (h.2.2 x)⟩

/-- A step that touches neither the store, the location nor the refresh logs. -/
theorem RunKeeps_of_frame (env : Env) (w w' : World) (hstore : w'.store = w.store)
    (hloc : w'.location = w.location) (hcalls : w'.refreshCalls = w.refreshCalls)
    (hposts : w'.refreshPosts = w.refreshPosts) : RunKeeps env w w' := by
  refine ⟨⟨[], by simp [hposts]⟩, by omega, by rw [hposts, hcalls]; omega, fun _ => ?_⟩
  rw [hstore]
  exact ⟨keysKept_refl _, hloc⟩

/-- Two runs in a row. -/
theorem RunKeeps_trans (env : Env) (w w1 w2 : World) (h : RunKeeps env w w1)
    (h' : RunKeeps env w1 w2) : RunKeeps env w w2 := by
  obtain ⟨⟨l, hl⟩, hc, hp, hk⟩ := h
  obtain ⟨⟨l', hl'⟩, hc', hp', hk'⟩ := h'
  have hlen1 : w1.refreshPosts.length = w.refreshPosts.length + l.length := by
    rw [hl, List.length_append]
  have hlen2 : w2.refreshPosts.length = w1.refreshPosts.length + l'.length := by
    rw [hl', List.length_append]
  refine ⟨⟨l ++ l', by rw [hl', hl, List.append_assoc]⟩, by omega, by omega, ?_⟩
  intro hall
  obtain ⟨hcount, hans⟩ := hall
  have hfirst : onlySuccessfulRefreshes env w w1 := by
    refine ⟨by omega, ?_⟩
    intro k hk1 hk2
    have h2 := hans k hk1 (by omega)
    have hget : w2.refreshPosts[k]? = w1.refreshPosts[k]? := by
      rw [hl']
      exact List.getElem?_append_left hk2
    unfold refreshAnswered2xx at h2 ⊢
    rw [hget] at h2
    exact h2
  have hsecond : onlySuccessfulRefreshes env w1 w2 := by
    refine ⟨by omega, ?_⟩
    intro k hk1 hk2
    exact hans k (by omega) hk2
  obtain ⟨hkept, hloc⟩ := hk hfirst
  obtain ⟨hkept', hloc'⟩ := hk' hsecond
  exact ⟨keysKept_trans _ _ _ hkept hkept', by rw [hloc', hloc]⟩

/-- One call of `refreshAccessToken`. -/
theorem RunKeeps_refreshAccessToken (env : Env) (w : World) :
    RunKeeps env w (refreshAccessToken env w).2 := by
  cases hrt : w.store.refreshToken with
  | none =>
    rw [refreshAccessToken_of_absent env w (Or.inl hrt)]
    refine ⟨⟨[], by simp⟩, by simp, by simp; omega, ?_⟩
    intro hall
    have := hall.1
    simp at this
  | some R =>
    by_cases hR : R = ""
    · subst hR
      rw [refreshAccessToken_of_absent env w (Or.inr hrt)]
      refine ⟨⟨[], by simp⟩, by simp, by simp; omega, ?_⟩
      intro hall
      have := hall.1
      simp at this
    · cases hans : env.refreshEndpoint w.refreshPosts.length (refreshRequest env R) with
      | none =>
        rw [refreshAccessToken_of_rejection env w R hrt hR (by simp [hans])]
        refine ⟨⟨[refreshRequest env R], rfl⟩, by simp, by simp; omega, ?_⟩
        intro hall
        have h2 := hall.2 w.refreshPosts.length (Nat.le_refl _) (by simp)
        simp [refreshAnswered2xx, hans] at h2
      | some r =>
        cases hv : validateStatus r.status
        · rw [refreshAccessToken_of_rejection env w R hrt hR (by simp [hans, hv])]
          refine ⟨⟨[refreshRequest env R], rfl⟩, by simp, by simp; omega, ?_⟩
          intro hall
          have h2 := hall.2 w.refreshPosts.length (Nat.le_refl _) (by simp)
          simp [refreshAnswered2xx, hans, hv] at h2
        · rw [refreshAccessToken_of_answer env w R r hrt hR hans hv]
          refine ⟨⟨[refreshRequest env R], rfl⟩, by simp, by simp; omega, fun _ => ⟨?_, rfl⟩⟩
          exact ⟨fun _ => rfl, fun _ => rfl, id⟩

/-- The time check only reads the clock. -/
theorem RunKeeps_isTokenExpiringSoon (env : Env) (w : World) (token : String) :
    RunKeeps env w (isTokenExpiringSoon env w token).2 := by
  unfold isTokenExpiringSoon
  cases env.jwtDecode token with
  | none => exact RunKeeps_of_frame env w w rfl rfl rfl rfl
  | some exp => cases exp <;> exact RunKeeps_of_frame env w _ rfl rfl rfl rfl

/-- One run of the request interceptor. -/
theorem RunKeeps_requestInterceptor (env : Env) (w : World) (config : Request) :
    RunKeeps env w (requestInterceptor env w config).2 := by
  cases htok : w.store.token with
  | none =>
    have hrun : requestInterceptor env w config = (.ok config, w) := by
      simp [requestInterceptor, htok]
    rw [hrun]
    exact RunKeeps_of_frame env w w rfl rfl rfl rfl
  | some token =>
    by_cases hne : token = ""
    · have hrun : requestInterceptor env w config = (.ok config, w) := by
        simp [requestInterceptor, htok, hne]
      rw [hrun]
      exact RunKeeps_of_frame env w w rfl rfl rfl rfl
    · have hclock := RunKeeps_isTokenExpiringSoon env w token
      rcases hsoon : isTokenExpiringSoon env w token with ⟨b, w1⟩
      rw [hsoon] at hclock
      cases b
      · have hrun : requestInterceptor env w config
            = (.ok (config.setAuthorization ("Bearer " ++ token)), w1) := by
          simp [requestInterceptor, htok, hne, hsoon]
        rw [hrun]
        exact hclock
      · have hrefresh := RunKeeps_refreshAccessToken env w1
        rcases href : refreshAccessToken env w1 with ⟨res, w2⟩
        rw [href] at hrefresh
        have hworld : (requestInterceptor env w config).2 = w2 := by
          cases res with
          | error e => simp [requestInterceptor, htok, hne, hsoon, href]
          | ok tok =>
            cases htr : tok.truthy <;> simp [requestInterceptor, htok, hne, hsoon, href, htr]
        rw [hworld]
        exact RunKeeps_trans env w w1 w2 hclock hrefresh

/-- Handing a request to the backend touches neither the store nor the refresh logs. -/
theorem RunKeeps_dispatchRequest (env : Env) (w : World) (config : Request) :
    RunKeeps env w (dispatchRequest env w config).2 := by
  rcases dispatchRequest_cases env w config with ⟨r, hd⟩ | ⟨resp, hd⟩ <;> rw [hd] <;>
    exact RunKeeps_of_frame env w _ rfl rfl rfl rfl

/-- The error handler, when every resend keeps the bookkeeping. -/
theorem RunKeeps_responseInterceptorRejected
    (resend : World → Request → Option (Except JsError Response × World))
    (env : Env) (w : World) (error : JsError)
    (hresend : ∀ w0 cfg res w', resend w0 cfg = some (res, w') → RunKeeps env w0 w')
    (res : Except JsError Response) (w' : World)
    (h : responseInterceptorRejected resend env w error = some (res, w')) :
    RunKeeps env w w' := by
  cases error with
  | error message =>
    rw [responseInterceptorRejected_of_no_response resend env w (.error message) rfl] at h
    cases h
    exact RunKeeps_of_frame env w w rfl rfl rfl rfl
  | axiosError cfg resp =>
    cases resp with
    | none =>
      rw [responseInterceptorRejected_of_no_response resend env w (.axiosError cfg none) rfl]
        at h
      cases h
      exact RunKeeps_of_frame env w w rfl rfl rfl rfl
    | some r =>
      by_cases hc : r.status = 401 ∧ cfg._retry = false
      · have hrefresh := RunKeeps_refreshAccessToken env w
        rcases href : refreshAccessToken env w with ⟨out, w1⟩
        rw [href] at hrefresh
        cases out with
        | error e =>
          rw [responseInterceptorRejected_of_refresh_error resend env w w1 cfg r e hc href] at h
          cases h
          exact hrefresh
        | ok tok =>
          rw [responseInterceptorRejected_of_refresh_ok resend env w w1 cfg r tok hc href] at h
          exact RunKeeps_trans env w w1 w' hrefresh (hresend _ _ _ _ h)
      · rw [responseInterceptorRejected_of_not_retried resend env w cfg r hc] at h
        cases h
        split <;> exact RunKeeps_of_frame env w _ rfl rfl rfl rfl

/-- A whole call of `API`. -/
theorem RunKeeps_API (env : Env) (fuel : Nat) :
    ∀ (w : World) (config : Request) (res : Except JsError Response) (w' : World),
      API env fuel w config = some (res, w') → RunKeeps env w w' := by
  induction fuel with
  | zero =>
    intro w config res w' h
    simp [API] at h
  | succ n ih =>
    intro w config res w' h
    rw [API_succ] at h
    have hattach := RunKeeps_requestInterceptor env w config
    rcases hri : requestInterceptor env w config with ⟨out, w1⟩
    rw [hri] at h hattach
    cases out with
    | error e =>
      exact RunKeeps_trans env w w1 w' hattach
        (RunKeeps_responseInterceptorRejected (API env n) env w1 e ih res w' h)
    | ok c1 =>
      have hdispatch := RunKeeps_dispatchRequest env w1 c1
      rcases hd : dispatchRequest env w1 c1 with ⟨out2, w2⟩
      rw [hd] at hdispatch
      simp only [hd] at h
      cases out2 with
      | ok r =>
        cases h
        exact RunKeeps_trans env w w1 _ hattach hdispatch
      | error e =>
        exact RunKeeps_trans env w w1 w' hattach
          (RunKeeps_trans env w1 w2 w' hdispatch
            (RunKeeps_responseInterceptorRejected (API env n) env w2 e ih res w' h))

/-- C12: when a call of `API` has returned and every call of `refreshAccessToken`
made on the way succeeded (each posted to the endpoint and was answered 2xx), and
in particular when no such call was made, every key of token, refreshToken and
username that was stored before is stored afterwards and the location has not been
assigned: the keys are removed and the redirect signalled only in a refresh that
fails. -/
theorem API_keeps_credentials (env : Env) (fuel : Nat) (w w' : World) (config : Request)
    (res : Except JsError Response)
    (hrun : API env fuel w config = some (res, w')) :
    (onlySuccessfulRefreshes env w w' →
        keysKept w.store w'.store ∧ w'.location = w.location)
      ∧ (w'.refreshCalls = w.refreshCalls →
        keysKept w.store w'.store ∧ w'.location = w.location) := by
  obtain ⟨⟨l, hl⟩, hc, hp, hk⟩ := RunKeeps_API env fuel w config res w' hrun
  refine ⟨hk, fun hcalls => hk ⟨?_, ?_⟩⟩
  · have hlen : w'.refreshPosts.length = w.refreshPosts.length + l.length := by
      rw [hl, List.length_append]
    omega
  · intro k hk1 hk2
    have hlen : w'.refreshPosts.length = w.refreshPosts.length + l.length := by
      rw [hl, List.length_append]
    omega

/-- C12 at a sample input: the backend answers 401 once, the refresh of the error
handler succeeds, and the three keys are still stored when the call returns. -/
theorem API_keeps_credentials_witness :
    keysKept freshStore
        { token := some "A2", refreshToken := some "R2", username := some "u" }
      ∧ ([] : List String) = (worldOf freshStore).location :=
  (API_keeps_credentials expiredOnceEnv 2 (worldOf freshStore)
    { store := { token := some "A2", refreshToken := some "R2", username := some "u" }
      clockReads := 2
      refreshCalls := 1
      refreshPosts := [refreshRequest expiredOnceEnv "R1"]
      sent := [sampleRequest.setAuthorization "Bearer fresh",
        Request.setAuthorization { sampleRequest with _retry := true } "Bearer A2"]
      location := []
      alerts := [] }
    sampleRequest (.ok { status := 200, data := [("count", .num 3)] }) rfl).1
    ⟨rfl, fun k _ hk => by
      have hk0 : k = 0 := by
        simp [worldOf] at hk
        exact hk
      subst hk0
      rfl⟩

/-! ## The request that is resent -/

/-- Assigning a header twice leaves the second value. -/
theorem setHeader_setHeader (hs : List (String × String)) (k v v' : String) :
    setHeader (setHeader hs k v) k v' = setHeader hs k v' := by
  induction hs with
  | nil => simp [setHeader]
  | cons p rest ih =>
    obtain ⟨k0, v0⟩ := p
    by_cases h0 : k0 = k
    · simp [setHeader, h0]
    · simp [setHeader, h0, ih]

/-- The request interceptor returns the request it got, or that request with the
Authorization header assigned. -/
theorem requestInterceptor_config (env : Env) (w w1 : World) (config c1 : Request)
    (h : requestInterceptor env w config = (.ok c1, w1)) :
    c1 = config ∨ ∃ v, c1 = config.setAuthorization v := by
  cases htok : w.store.token with
  | none =>
    simp [requestInterceptor, htok] at h
    exact Or.inl h.1.symm
  | some token =>
    by_cases hne : token = ""
    · simp [requestInterceptor, htok, hne] at h
      exact Or.inl h.1.symm
    · rcases hsoon : isTokenExpiringSoon env w token with ⟨b, w0⟩
      cases b
      · simp [requestInterceptor, htok, hne, hsoon] at h
        exact Or.inr ⟨_, h.1.symm⟩
      · rcases href : refreshAccessToken env w0 with ⟨res, w2⟩
        cases res with
        | error e => simp [requestInterceptor, htok, hne, hsoon, href] at h
        | ok tok =>
          cases htr : tok.truthy
          · simp [requestInterceptor, htok, hne, hsoon, href, htr] at h
            exact Or.inl h.1.symm
          · simp [requestInterceptor, htok, hne, hsoon, href, htr] at h
            exact Or.inr ⟨_, h.1.symm⟩

/-- A refresh that returns a token has stored it, as a string, under `token`. -/
theorem refreshAccessToken_ok_store (env : Env) (w w1 : World) (token : JsVal)
    (h : refreshAccessToken env w = (.ok token, w1)) :
    w1.store.token = some token.toStr := by
  cases hrt : w.store.refreshToken with
  | none =>
    rw [refreshAccessToken_of_absent env w (Or.inl hrt)] at h
    simp at h
  | some R =>
    by_cases hR : R = ""
    · subst hR
      rw [refreshAccessToken_of_absent env w (Or.inr hrt)] at h
      simp at h
    · cases hans : env.refreshEndpoint w.refreshPosts.length (refreshRequest env R) with
      | none =>
        rw [refreshAccessToken_of_rejection env w R hrt hR (by simp [hans])] at h
        simp at h
      | some r =>
        cases hv : validateStatus r.status
        · rw [refreshAccessToken_of_rejection env w R hrt hR (by simp [hans, hv])] at h
          simp at h
        · rw [refreshAccessToken_of_answer env w R r hrt hR hans hv] at h
          simp only [Prod.mk.injEq, Except.ok.injEq] at h
          rw [← h.2, ← h.1]

/-- With a stored token that the time check finds not expiring soon, the request
interceptor attaches that token; with the empty string stored it attaches nothing. -/
theorem requestInterceptor_of_not_expiring (env : Env) (w : World) (config : Request)
    (token : String) (hstored : w.store.token = some token)
    (hfresh : (isTokenExpiringSoon env w token).1 = false) :
    (requestInterceptor env w config).1
      = .ok (if token = "" then config else config.setAuthorization ("Bearer " ++ token)) := by
  by_cases hne : token = ""
  · simp [requestInterceptor, hstored, hne]
  · rcases hsoon : isTokenExpiringSoon env w token with ⟨b, w0⟩
    rw [hsoon] at hfresh
    simp only at hfresh
    subst hfresh
    simp [requestInterceptor, hstored, hne, hsoon]

/-- The request interceptor changes nothing of a request but its Authorization
header. -/
theorem requestInterceptor_frame (env : Env) (w w1 : World) (config c1 : Request)
    (h : requestInterceptor env w config = (.ok c1, w1)) :
    c1.method = config.method ∧ c1.url = config.url ∧ c1.data = config.data
      ∧ c1._retry = config._retry
      ∧ ∀ k, k ≠ "Authorization" → getHeader c1.headers k = getHeader config.headers k := by
  rcases requestInterceptor_config env w w1 config c1 h with rfl | ⟨v, rfl⟩
  · exact ⟨rfl, rfl, rfl, rfl, fun _ _ => rfl⟩
  · exact ⟨rfl, rfl, rfl, rfl, fun k hk => getHeader_setHeader_of_ne _ _ _ _ hk⟩

/-- C13, as amended: on the 401 retry path (the first attempt, with the `_retry`
flag unset, is answered 401, the refresh of the error handler returns a token, and
the resend passes the request interceptor) the backend receives exactly the first
attempt and the resent request; the resent request has the method, the URL, the
body and every header other than Authorization of the original request, and its
`_retry` flag is set. Its Authorization header is "Bearer " followed by the token
returned by the refresh of the error handler whenever the request interceptor,
which runs again on the resend, finds that token not expiring soon. -/
theorem API_resent_request (env : Env) (fuel : Nat) (w w1 w3 w4 : World)
    (config c1 c3 : Request) (r1 : Response) (token : JsVal)
    (hfuel : 2 ≤ fuel)
    (hflag : config._retry = false)
    (hattach : requestInterceptor env w config = (.ok c1, w1))
    (hanswer : env.backend w1.sent.length c1 = some r1) (h401 : r1.status = 401)
    (hrefresh : refreshAccessToken env { w1 with sent := w1.sent ++ [c1] } = (.ok token, w3))
    (hattach2 : requestInterceptor env w3
        (Request.setAuthorization { c1 with _retry := true } ("Bearer " ++ token.toStr))
      = (.ok c3, w4)) :
    (API env fuel w config).map (fun p => p.2.sent) = some (w.sent ++ [c1, c3])
      ∧ c3.method = config.method ∧ c3.url = config.url ∧ c3.data = config.data
      ∧ c3._retry = true
      ∧ (∀ k, k ≠ "Authorization" → getHeader c3.headers k = getHeader config.headers k)
      ∧ ((isTokenExpiringSoon env w3 token.toStr).1 = false →
          getHeader c3.headers "Authorization" = some ("Bearer " ++ token.toStr)) := by
  obtain ⟨n, rfl⟩ : ∃ n, fuel = n + 2 := ⟨fuel - 2, by omega⟩
  obtain ⟨hm1, hu1, hd1, hr1, hh1⟩ := requestInterceptor_frame env w w1 config c1 hattach
  obtain ⟨hm3, hu3, hd3, hr3, hh3⟩ := requestInterceptor_frame env w3 w4 _ c3 hattach2
  have hc1 : c1._retry = false := by rw [hr1, hflag]
  have hsent1 : w1.sent = w.sent := requestInterceptor_sent env w w1 config _ hattach
  have hsent3 : w3.sent = w1.sent ++ [c1] := refreshAccessToken_sent env _ w3 _ hrefresh
  have hsent4 : w4.sent = w3.sent := requestInterceptor_sent env w3 w4 _ _ hattach2
  have hinvalid : validateStatus r1.status = false := by
    rw [h401]
    decide
  have hfirst : dispatchRequest env w1 c1
      = (.error (.axiosError c1 (some r1)), { w1 with sent := w1.sent ++ [c1] }) := by
    simp [dispatchRequest, hanswer, hinvalid]
  have hresend : ∃ res w', API env (n + 1) w3
      (Request.setAuthorization { c1 with _retry := true } ("Bearer " ++ token.toStr))
      = some (res, w') ∧ w'.sent = w4.sent ++ [c3] := by
    rcases dispatchRequest_cases env w4 c3 with ⟨r, hd⟩ | ⟨resp, hd⟩
    · refine ⟨.ok r, { w4 with sent := w4.sent ++ [c3] }, ?_, rfl⟩
      rw [API_succ, hattach2]
      simp only [hd]
    · obtain ⟨w5, hh, hsent5⟩ := responseInterceptorRejected_of_retry (API env n) env
        { w4 with sent := w4.sent ++ [c3] } c3 resp (by rw [hr3]; rfl)
      refine ⟨.error (.axiosError c3 resp), w5, ?_, hsent5⟩
      rw [API_succ, hattach2]
      simp only [hd]
      exact hh
  obtain ⟨res, w', hres, hsent'⟩ := hresend
  have hrun : API env (n + 2) w config = some (res, w') := by
    rw [API_succ, hattach]
    simp only [hfirst]
    rw [responseInterceptorRejected_of_refresh_ok (API env (n + 1)) env _ w3 c1 r1 token
      ⟨h401, hc1⟩ hrefresh]
    exact hres
  refine ⟨?_, by rw [hm3]; exact hm1, by rw [hu3]; exact hu1, by rw [hd3]; exact hd1,
    by rw [hr3]; rfl, ?_, ?_⟩
  · rw [hrun]
    simp [hsent', hsent4, hsent3, hsent1]
  · intro k hk
    rw [hh3 k hk]
    exact (getHeader_setHeader_of_ne _ _ _ _ hk).trans (hh1 k hk)
  · intro hfresh
    have hstored := refreshAccessToken_ok_store env _ w3 token hrefresh
    have hout := requestInterceptor_of_not_expiring env w3
      (Request.setAuthorization { c1 with _retry := true } ("Bearer " ++ token.toStr))
      token.toStr hstored hfresh
    rw [hattach2] at hout
    simp only [Except.ok.injEq] at hout
    rw [hout]
    by_cases hempty : token.toStr = ""
    · rw [if_pos hempty]
      exact getHeader_setHeader _ _ _
    · rw [if_neg hempty]
      exact getHeader_setHeader _ _ _

/-- C13, as amended, at a sample input: the backend answers 401 once and the
refresh of the error handler returns `A2`, which is good for more than 60 s. -/
theorem API_resent_request_witness :
    (API expiredOnceEnv 2 (worldOf freshStore) sampleRequest).map (fun p => p.2.sent)
      = some ((worldOf freshStore).sent ++ [sampleRequest.setAuthorization "Bearer fresh",
          Request.setAuthorization { sampleRequest with _retry := true } "Bearer A2"])
    ∧ getHeader (Request.setAuthorization { sampleRequest with _retry := true }
        "Bearer A2").headers "Authorization" = some ("Bearer " ++ (JsVal.str "A2").toStr) :=
  have h := API_resent_request expiredOnceEnv 2 (worldOf freshStore)
    { worldOf freshStore with clockReads := 1 }
    { store := { token := some "A2", refreshToken := some "R2", username := some "u" }
      clockReads := 1
      refreshCalls := 1
      refreshPosts := [refreshRequest expiredOnceEnv "R1"]
      sent := [sampleRequest.setAuthorization "Bearer fresh"]
      location := []
      alerts := [] }
    { store := { token := some "A2", refreshToken := some "R2", username := some "u" }
      clockReads := 2
      refreshCalls := 1
      refreshPosts := [refreshRequest expiredOnceEnv "R1"]
      sent := [sampleRequest.setAuthorization "Bearer fresh"]
      location := []
      alerts := [] }
    sampleRequest (sampleRequest.setAuthorization "Bearer fresh")
    (Request.setAuthorization { sampleRequest with _retry := true } "Bearer A2")
    { status := 401, data := [] } (.str "A2")
    (by decide) rfl rfl rfl rfl rfl rfl
  ⟨h.1, h.2.2.2.2.2.2 rfl⟩

/-- C13 as stated fails when the token returned by the refresh of the error
handler is itself within 60 s of its expiry: that refresh returns "stale", the
request interceptor refreshes once more on the resend, and the resent request
carries "Bearer A2", the token of the second refresh, not "Bearer stale". -/
theorem API_resent_request_counterexample :
    (refreshAccessToken shortLivedEnv
        { worldOf freshStore with
          clockReads := 1
          sent := [sampleRequest.setAuthorization "Bearer fresh"] }).1
      = .ok (.str "stale")
    ∧ (API shortLivedEnv 2 (worldOf freshStore) sampleRequest).map
        (fun p => p.2.sent.map (fun c => getHeader c.headers "Authorization"))
      = some [some "Bearer fresh", some "Bearer A2"]
    ∧ (API shortLivedEnv 2 (worldOf freshStore) sampleRequest).map (fun p => p.2.refreshCalls)
      = some 2
    ∧ some "Bearer A2" ≠ some ("Bearer " ++ (JsVal.str "stale").toStr) :=
  ⟨rfl, rfl, rfl, by decide⟩

/-! ## The idempotency key of create-order -/

/-- C14 at a sample payment attempt: `handlePayment` passes the key
"9b1deb4d-3b7d-4bad-9bdd-2b0d7b3dcb6d" to `createOrder`, but the posted request
carries the key that `createOrder` builds itself from the clock and a random
string; the request is the same whatever is passed as second argument. -/
theorem createOrder_ignores_passed_key :
    getHeader
        (createOrderRequest sampleEnv (worldOf freshStore) "k3j2h1g9x"
          [("amount", .num 500), ("appointment_id", .num 7)]
          [("X-Idempotency-Key", "9b1deb4d-3b7d-4bad-9bdd-2b0d7b3dcb6d")]).headers
        "X-Idempotency-Key"
      = some "order-1000000-k3j2h1g9x"
    ∧ some "order-1000000-k3j2h1g9x" ≠ some "9b1deb4d-3b7d-4bad-9bdd-2b0d7b3dcb6d"
    ∧ (handlePayment sampleEnv 1 (worldOf freshStore) "9b1deb4d-3b7d-4bad-9bdd-2b0d7b3dcb6d"
        "k3j2h1g9x" (.num 500) (.num 7)).map
          (fun p => p.2.sent.map (fun c => getHeader c.headers "X-Idempotency-Key"))
      = some [some "order-1000000-k3j2h1g9x"]
    ∧ ∀ (env : Env) (w : World) (random : String) (paymentData : List (String × JsVal))
        (options options' : List (String × String)),
        createOrderRequest env w random paymentData options
          = createOrderRequest env w random paymentData options' :=
  ⟨rfl, by decide, rfl, fun _ _ _ _ _ _ => rfl⟩

/-! ## The Login page -/

/-- C15 at the failing input: a logged-out user submits wrong credentials and the
login endpoint answers 401. The error handler of the response interceptor takes
the 401 for an expired token and refreshes; with no refresh token stored the
refresh throws an error without a response, the location is assigned, and
`handleSubmit` shows the network message, not "Invalid credentials. Please try
again.". -/
theorem handleSubmit_401_logged_out (fuel : Nat) :
    handleSubmit unauthorizedEnv (fuel + 1) (worldOf emptyStore) "alice" "wrong"
      = some
        { error := "Network error. Please check your connection."
          navigated := []
          world :=
            { store := emptyStore
              clockReads := 0
              refreshCalls := 1
              refreshPosts := []
              sent :=
                [{ method := "post"
                   url := "login/"
                   data := [("username", .str "alice"), ("password", .str "wrong")]
                   headers := []
                   _retry := false }]
              location := ["/login"]
              alerts := [] } } :=
  rfl

/-- C16: when the call of `login` returns a response, `handleSubmit` stores the
access token of the response under token, its refresh token under refreshToken and
the submitted username under username (and navigates home) if the response has an
access token; if it has none, the credential store stays as the call left it and
the error is "Login failed. Please try again.". -/
theorem handleSubmit_on_response (env : Env) (fuel : Nat) (w w1 : World)
    (username password : String) (response : Response)
    (hlogin : login env fuel w [("username", .str username), ("password", .str password)]
      = some (.ok response, w1)) :
    ((JsVal.field response.data "access").truthy = true →
        handleSubmit env fuel w username password
          = some
            { error := ""
              navigated := ["/"]
              world :=
                { w1 with
                  store :=
                    { token := some (JsVal.field response.data "access").toStr
                      refreshToken := some (JsVal.field response.data "refresh").toStr
                      username := some username } } })
      ∧ ((JsVal.field response.data "access").truthy = false →
        handleSubmit env fuel w username password
          = some { error := "Login failed. Please try again.", navigated := [], world := w1 }) := by
  refine ⟨fun h => ?_, fun h => ?_⟩
  · simp [handleSubmit, hlogin, h]
  · simp [handleSubmit, hlogin, h]

/-- C16 at a sample input: a logged-out user, the backend grants `A1`, `R1`. -/
theorem handleSubmit_on_response_witness :
    handleSubmit grantingEnv 1 (worldOf emptyStore) "alice" "right"
      = some
        { error := ""
          navigated := ["/"]
          world :=
            { store := { token := some "A1", refreshToken := some "R1", username := some "alice" }
              clockReads := 0
              refreshCalls := 0
              refreshPosts := []
              sent :=
                [{ method := "post"
                   url := "login/"
                   data := [("username", .str "alice"), ("password", .str "right")]
                   headers := []
                   _retry := false }]
              location := []
              alerts := [] } } :=
  (handleSubmit_on_response grantingEnv 1 (worldOf emptyStore)
    { worldOf emptyStore with
      sent :=
        [{ method := "post"
           url := "login/"
           data := [("username", .str "alice"), ("password", .str "right")]
           headers := []
           _retry := false }] }
    "alice" "right"
    { status := 200, data := [("access", .str "A1"), ("refresh", .str "R1")] } rfl).1 rfl

/-! ## Validation of the forms -/

/-- C18 at the failing input: the name "Ann", a tab, "Lee". The tab is neither a
letter, a space, an apostrophe nor a hyphen, yet `\\s` of the pattern matches it:
`validateForm` of BookAppointment sets no name error and `validateName` of
UpdateAppointment returns true. The same goes for a no-break space. -/
theorem name_check_accepts_tab :
    ("Ann\tLee".data.all isLetterSpaceApostropheHyphen) = false
    ∧ (BookAppointment.validateForm utc { sampleForm with name := "Ann\tLee" }).name = none
    ∧ UpdateAppointment.validateName "Ann\tLee" = true
    ∧ ("Ann\u00a0Lee".data.all isLetterSpaceApostropheHyphen) = false
    ∧ (BookAppointment.validateForm utc { sampleForm with name := "Ann\u00a0Lee" }).name = none
    ∧ UpdateAppointment.validateName "Ann\u00a0Lee" = true :=
  ⟨by decide, by decide, by decide, by decide, by decide, by decide⟩

/-- C19 at the failing input: a browser five hours behind UTC. `new Date` reads
the date as midnight UTC, which in local time is still the evening before, so for
Monday 2024-01-08 both pages report "Appointments are not available on Sundays",
and for Sunday 2024-01-07 neither does. -/
theorem sunday_check_west_of_utc :
    calendarWeekDay "2024-01-08" = some 1
    ∧ (BookAppointment.validateForm fiveHoursWest { sampleForm with date := "2024-01-08" }).date
      = some sundayMessage
    ∧ (UpdateAppointment.validateForm fiveHoursWest "2024-01-08" "10:30").1 = some sundayMessage
    ∧ calendarWeekDay "2024-01-07" = some 0
    ∧ (BookAppointment.validateForm fiveHoursWest { sampleForm with date := "2024-01-07" }).date
      = none
    ∧ (UpdateAppointment.validateForm fiveHoursWest "2024-01-07" "10:30").1 = none :=
  ⟨by decide, by decide, by decide, by decide, by decide, by decide⟩

/-- C20 at the failing inputs: `parseInt` reads the digits at the head of the age
field and drops the rest, so `validateForm` of BookAppointment sets no age error
for "1e3" (a thousand, read as 1), for "12.5" and for "12abc" (both read as 12). -/
theorem age_check_accepts_trailing_characters :
    (BookAppointment.validateForm utc { sampleForm with age := .str "1e3" }).age = none
    ∧ (BookAppointment.validateForm utc { sampleForm with age := .str "12.5" }).age = none
    ∧ (BookAppointment.validateForm utc { sampleForm with age := .str "12abc" }).age = none
    ∧ parseInt "1e3" 0 = some 1
    ∧ parseInt "12.5" 0 = some 12
    ∧ parseInt "12abc" 0 = some 12 :=
  ⟨by decide, by decide, by decide, by decide, by decide, by decide⟩

/-! ## The profile form -/

/-- C21 at the failing input: `handleEditClick` loads the profile of a child of
age 0, the number 0, into the form; `!formData.age` holds for the number 0 and
`validateForm` of ProfileManagement reports "Age is required", while the same age
typed as the text "0" gets no error. Typed ages that denote 1000 and 120.5 get no
error either, as `parseInt` reads only their leading digits. -/
theorem profile_age_zero_from_profile :
    (handleEditClick infantProfile).age = .num 0
    ∧ (ProfileManagement.validateForm String.toLower true ["baby"]
        (handleEditClick infantProfile)).age = some "Age is required"
    ∧ (ProfileManagement.validateForm String.toLower true ["baby"]
        { handleEditClick infantProfile with age := .str "0" }).age = none
    ∧ (ProfileManagement.validateForm String.toLower false []
        { sampleProfileForm with age := .str "1e3" }).age = none
    ∧ (ProfileManagement.validateForm String.toLower false []
        { sampleProfileForm with age := .str "120.5" }).age = none :=
  ⟨rfl, by decide, by decide, by decide, by decide⟩

/-- C22 at the failing inputs: a profile name of exactly 30 characters and a
patient name of exactly 100 characters get no error from `validateForm` of
ProfileManagement, whose tests are `length > 30` and `length > 100`, although its
messages ask for less than 30 and less than 100 characters; 31 and 101 characters
are refused. -/
theorem profile_names_at_the_limit :
    jsLength (String.mk (List.replicate 30 'a')) = 30
    ∧ jsLength (String.mk (List.replicate 100 'b')) = 100
    ∧ ProfileManagement.validateForm String.toLower false []
        { sampleProfileForm with
          profile_name := String.mk (List.replicate 30 'a')
          patient_name := String.mk (List.replicate 100 'b') }
      = { profile_name := none, patient_name := none, age := none, sex := none }
    ∧ ProfileManagement.validateForm String.toLower false []
        { sampleProfileForm with
          profile_name := String.mk (List.replicate 31 'a')
          patient_name := String.mk (List.replicate 101 'b') }
      = { profile_name := some "Profile name must be less than 30 characters"
          patient_name := some "Patient name must be less than 100 characters"
          age := none
          sex := none } :=
  ⟨by decide, by decide, by decide, by decide⟩

/-! ## The update of an appointment -/

/-- C23 at the failing input: the appointment found has the time "10:30:00";
`fetchAppointment` puts "10:30" into the form; submitted as prefilled,
`handleUpdate` compares "10:30" with "10:30:00", finds a change, puts the update
and shows the success message, where the message that nothing changed was due. -/
theorem handleUpdate_prefilled_sends_update (fuel : Nat) :
    prefill sampleAppointment = ("2024-01-09", "10:30")
    ∧ handleUpdate sampleEnv (fuel + 1) (worldOf freshStore) utc (some sampleAppointment)
        (prefill sampleAppointment).1 (prefill sampleAppointment).2
      = some
        { messageType := "success"
          messageText := "Appointment updated successfully!"
          step := 3
          world :=
            { worldOf freshStore with
              clockReads := 1
              sent :=
                [{ method := "put"
                   url := "appointments/update/"
                   data := [("id", .num 7), ("date", .str "2024-01-09"), ("time", .str "10:30")]
                   headers := [("Authorization", "Bearer fresh")]
                   _retry := false }] } } :=
  ⟨rfl, rfl⟩

/-! ## Which requests a call of `API` sends -/

/-- A request interceptor that rejects leaves the credential store empty. -/
theorem requestInterceptor_error_store (env : Env) (w w1 : World) (config : Request)
    (e : JsError) (h : requestInterceptor env w config = (.error e, w1)) :
    w1.store = { token := none, refreshToken := none, username := none } := by
  rcases requestInterceptor_cases env w config with ⟨e', w', hri, hstore, -⟩ |
    ⟨c, w', hri, -, -⟩
  · rw [h] at hri
    cases hri
    exact hstore
  · rw [h] at hri
    cases hri

/-- The error of a dispatch carries the answer of the backend to that request. -/
theorem dispatchRequest_error_response (env : Env) (w w1 : World) (config cfg : Request)
    (resp : Option Response)
    (h : dispatchRequest env w config = (.error (.axiosError cfg resp), w1)) :
    resp = env.backend w.sent.length config := by
  unfold dispatchRequest at h
  cases hb : env.backend w.sent.length config with
  | none =>
    simp only [hb, Prod.mk.injEq, Except.error.injEq, JsError.axiosError.injEq] at h
    exact h.1.2.symm
  | some r =>
    cases hv : validateStatus r.status
    · simp only [hb, hv, Bool.false_eq_true, if_false, Prod.mk.injEq, Except.error.injEq,
        JsError.axiosError.injEq] at h
      exact h.1.2.symm
    · simp [hb, hv] at h

/-- A call of `API` on a request whose `_retry` flag is set sends at most one
request, and what it sends has the method, the URL and the body of that request. -/
theorem API_of_retry_sent (env : Env) (fuel : Nat) (w : World) (config : Request)
    (hretry : config._retry = true) :
    ∃ res w' l, API env (fuel + 1) w config = some (res, w') ∧ w'.sent = w.sent ++ l
      ∧ l.length ≤ 1
      ∧ ∀ c ∈ l, c.method = config.method ∧ c.url = config.url ∧ c.data = config.data := by
  rcases hri : requestInterceptor env w config with ⟨out, w1⟩
  have hsent1 : w1.sent = w.sent := requestInterceptor_sent env w w1 config out hri
  cases out with
  | error e =>
    have hstore := requestInterceptor_error_store env w w1 config e hri
    obtain ⟨e', w2, hh, hsent2⟩ := responseInterceptorRejected_of_absent (API env fuel) env w1 e
      (by rw [hstore])
    refine ⟨.error e', w2, [], ?_, by rw [hsent2, hsent1]; simp, by simp, by simp⟩
    rw [API_succ, hri]
    exact hh
  | ok c1 =>
    obtain ⟨hm, hu, hd, hr, -⟩ := requestInterceptor_frame env w w1 config c1 hri
    rcases dispatchRequest_cases env w1 c1 with ⟨r, hdis⟩ | ⟨resp, hdis⟩
    · refine ⟨.ok r, { w1 with sent := w1.sent ++ [c1] }, [c1], ?_, by simp [hsent1],
        by simp, ?_⟩
      · rw [API_succ, hri]
        simp only [hdis]
      · intro c hc
        simp only [List.mem_singleton] at hc
        subst hc
        exact ⟨hm, hu, hd⟩
    · obtain ⟨w3, hh, hsent3⟩ := responseInterceptorRejected_of_retry (API env fuel) env
        { w1 with sent := w1.sent ++ [c1] } c1 resp (by rw [hr, hretry])
      refine ⟨.error (.axiosError c1 resp), w3, [c1], ?_, by rw [hsent3]; simp [hsent1],
        by simp, ?_⟩
      · rw [API_succ, hri]
        simp only [hdis]
        exact hh
      · intro c hc
        simp only [List.mem_singleton] at hc
        subst hc
        exact ⟨hm, hu, hd⟩

/-- The error handler sends at most one request, with the method, the URL and the
body of the request that failed, and none when the answer was not 401, provided
every resend of a request with the `_retry` flag set does so. -/
theorem responseInterceptorRejected_sent
    (resend : World → Request → Option (Except JsError Response × World))
    (env : Env) (w : World) (cfg : Request) (resp : Option Response)
    (hresend : ∀ w0 c, c._retry = true →
      ∃ res w' l, resend w0 c = some (res, w') ∧ w'.sent = w0.sent ++ l ∧ l.length ≤ 1
        ∧ ∀ x ∈ l, x.method = c.method ∧ x.url = c.url ∧ x.data = c.data) :
    ∃ res w' l, responseInterceptorRejected resend env w (.axiosError cfg resp) = some (res, w')
      ∧ w'.sent = w.sent ++ l ∧ l.length ≤ 1
      ∧ (∀ x ∈ l, x.method = cfg.method ∧ x.url = cfg.url ∧ x.data = cfg.data)
      ∧ ((∀ r, resp = some r → r.status ≠ 401) → l = []) := by
  cases resp with
  | none =>
    exact ⟨.error (.axiosError cfg none), w, [],
      responseInterceptorRejected_of_no_response resend env w (.axiosError cfg none) rfl,
      by simp, by simp, by simp, fun _ => rfl⟩
  | some r =>
    by_cases hc : r.status = 401 ∧ cfg._retry = false
    · rcases refreshAccessToken_cases env w with ⟨e, w1, href, -, hsent⟩ |
        ⟨tok, w1, href, hsent⟩
      · exact ⟨.error e, w1, [],
          responseInterceptorRejected_of_refresh_error resend env w w1 cfg r e hc href,
          by rw [hsent]; simp, by simp, by simp, fun _ => rfl⟩
      · obtain ⟨res, w2, l, hres, hsent2, hlen, hsame⟩ := hresend w1
          (Request.setAuthorization { cfg with _retry := true } ("Bearer " ++ tok.toStr)) rfl
        refine ⟨res, w2, l, ?_, by rw [hsent2, hsent], hlen, hsame, ?_⟩
        · rw [responseInterceptorRejected_of_refresh_ok resend env w w1 cfg r tok hc href]
          exact hres
        · intro hnot
          exact absurd hc.1 (hnot r rfl)
    · refine ⟨.error (.axiosError cfg (some r)),
        if r.status = 429 then { w with alerts := w.alerts ++ [rateLimitNotice] } else w, [],
        responseInterceptorRejected_of_not_retried resend env w cfg r hc, ?_, by simp, by simp,
        fun _ => rfl⟩
      split <;> simp

/-- A call of `API` with fuel from 2 on returns after sending at most two requests,
each with the method, the URL and the body of the request given: none when the
request interceptor rejects, exactly the request that the interceptor returns when
the backend does not answer it with 401. -/
theorem API_sent (env : Env) (n : Nat) (w : World) (config : Request) :
    ∃ res w' l, API env (n + 2) w config = some (res, w') ∧ w'.sent = w.sent ++ l
      ∧ l.length ≤ 2
      ∧ (∀ c ∈ l, c.method = config.method ∧ c.url = config.url ∧ c.data = config.data)
      ∧ (∀ e w1, requestInterceptor env w config = (.error e, w1) → l = [])
      ∧ (∀ c1 w1, requestInterceptor env w config = (.ok c1, w1) →
          (∀ r, env.backend w.sent.length c1 = some r → r.status ≠ 401) → l = [c1]) := by
  rcases hri : requestInterceptor env w config with ⟨out, w1⟩
  have hsent1 : w1.sent = w.sent := requestInterceptor_sent env w w1 config out hri
  cases out with
  | error e =>
    have hstore := requestInterceptor_error_store env w w1 config e hri
    obtain ⟨e', w2, hh, hsent2⟩ :=
      responseInterceptorRejected_of_absent (API env (n + 1)) env w1 e (by rw [hstore])
    refine ⟨.error e', w2, [], ?_, by rw [hsent2, hsent1]; simp, by simp, by simp,
      fun _ _ _ => rfl, ?_⟩
    · rw [API_succ, hri]
      exact hh
    · intro c1 w1' h
      cases h
  | ok c1 =>
    obtain ⟨hm, hu, hd, -, -⟩ := requestInterceptor_frame env w w1 config c1 hri
    rcases dispatchRequest_cases env w1 c1 with ⟨r, hdis⟩ | ⟨resp, hdis⟩
    · refine ⟨.ok r, { w1 with sent := w1.sent ++ [c1] }, [c1], ?_, by simp [hsent1],
        by simp, ?_, ?_, ?_⟩
      · rw [API_succ, hri]
        simp only [hdis]
      · intro c hc
        simp only [List.mem_singleton] at hc
        subst hc
        exact ⟨hm, hu, hd⟩
      · intro e w1' h
        cases h
      · intro c1' w1' h _
        cases h
        rfl
    · have hresp := dispatchRequest_error_response env w1 _ c1 c1 resp hdis
      obtain ⟨res, w3, l, hh, hsent3, hlen, hsame, hnone⟩ :=
        responseInterceptorRejected_sent (API env (n + 1)) env
          { w1 with sent := w1.sent ++ [c1] } c1 resp
          (fun w0 c hc => API_of_retry_sent env n w0 c hc)
      refine ⟨res, w3, c1 :: l, ?_, by rw [hsent3]; simp [hsent1], by simp; omega, ?_, ?_, ?_⟩
      · rw [API_succ, hri]
        simp only [hdis]
        exact hh
      · intro c hc
        rcases List.mem_cons.mp hc with rfl | hc
        · exact ⟨hm, hu, hd⟩
        · obtain ⟨h1, h2, h3⟩ := hsame c hc
          exact ⟨h1.trans hm, h2.trans hu, h3.trans hd⟩
      · intro e w1' h
        cases h
      · intro c1' w1' h hnot
        cases h
        rw [hnone]
        intro r hr
        rw [hresp, hsent1] at hr
        exact hnot r hr

/-! ## updateAppointment -/

/-- The JSON body of an object with the keys id, date and time, the value of time
being defined: each key reads as the object's value, any other key is not there. -/
theorem field_jsonBody_three (a b c : JsVal) (hc : c ≠ .undefined) (k : String) :
    JsVal.field (jsonBody [("id", a), ("date", b), ("time", c)]) k
      = if k = "id" then a else if k = "date" then b else if k = "time" then c
        else .undefined := by
  have hcb : (c != JsVal.undefined) = true := by simpa using hc
  have hu : (JsVal.undefined != JsVal.undefined) = false := by decide
  have key : ∀ s : String, (k == s) = decide (k = s) := fun s => by
    by_cases h : k = s <;> simp [h]
  rcases eq_or_ne a .undefined with rfl | ha <;> rcases eq_or_ne b .undefined with rfl | hb
  · simp only [jsonBody, List.filter, hcb, hu, JsVal.field, List.lookup, key]
    by_cases h1 : k = "id" <;> by_cases h2 : k = "date" <;> by_cases h3 : k = "time" <;>
      simp_all
  · have hbb : (b != JsVal.undefined) = true := by simpa using hb
    simp only [jsonBody, List.filter, hcb, hu, hbb, JsVal.field, List.lookup, key]
    by_cases h1 : k = "id" <;> by_cases h2 : k = "date" <;> by_cases h3 : k = "time" <;>
      simp_all
  · have hab : (a != JsVal.undefined) = true := by simpa using ha
    simp only [jsonBody, List.filter, hcb, hu, hab, JsVal.field, List.lookup, key]
    by_cases h1 : k = "id" <;> by_cases h2 : k = "date" <;> by_cases h3 : k = "time" <;>
      simp_all
  · have hab : (a != JsVal.undefined) = true := by simpa using ha
    have hbb : (b != JsVal.undefined) = true := by simpa using hb
    simp only [jsonBody, List.filter, hcb, hu, hab, hbb, JsVal.field, List.lookup, key]
    by_cases h1 : k = "id" <;> by_cases h2 : k = "date" <;> by_cases h3 : k = "time" <;>
      simp_all

/-- A value that is truthy is not `undefined`. -/
theorem ne_undefined_of_truthy (v : JsVal) (h : v.truthy = true) : v ≠ .undefined := by
  intro hv
  rw [hv] at h
  exact Bool.noConfusion h

/-- C17, as amended: `updateAppointment` fails with "Appointment ID is required for
updates", leaving the world as it was (nothing sent), when the id of the appointment
data is missing or falsy. Otherwise its result is that of the one call of `API`
on the PUT to appointments/update/, errors included, and with fuel from 2 on that
call returns after sending at most two requests, each a PUT to
appointments/update/ with the JSON body of the object: none when the request
interceptor rejects, exactly the one the interceptor returns when the backend does
not answer it with 401. In the body, id and date are those given (a key whose value
is undefined is left out), time is the given time, or "09:00" when none is given,
and there is no other key. -/
theorem updateAppointment_spec (env : Env) (fuel : Nat) (w : World)
    (appointmentData : List (String × JsVal)) (hfuel : 2 ≤ fuel) :
    ((JsVal.field appointmentData "id").truthy = false →
        updateAppointment env fuel w appointmentData
          = some (.error (.error "Appointment ID is required for updates"), w))
      ∧ ((JsVal.field appointmentData "id").truthy = true →
        updateAppointment env fuel w appointmentData
            = API env fuel w (updateAppointmentRequest appointmentData)
          ∧ ∃ res w' l, updateAppointment env fuel w appointmentData = some (res, w')
            ∧ w'.sent = w.sent ++ l ∧ l.length ≤ 2
            ∧ (∀ c ∈ l, c.method = "put" ∧ c.url = "appointments/update/"
                ∧ c.data = jsonBody (updateAppointmentBody appointmentData))
            ∧ (∀ e w1, requestInterceptor env w (updateAppointmentRequest appointmentData)
                  = (.error e, w1) → l = [])
            ∧ (∀ c1 w1, requestInterceptor env w (updateAppointmentRequest appointmentData)
                  = (.ok c1, w1) →
                (∀ r, env.backend w.sent.length c1 = some r → r.status ≠ 401) → l = [c1]))
      ∧ (∀ k, JsVal.field (jsonBody (updateAppointmentBody appointmentData)) k
          = if k = "id" then JsVal.field appointmentData "id"
            else if k = "date" then JsVal.field appointmentData "date"
            else if k = "time" then
              (if (JsVal.field appointmentData "time").truthy then
                JsVal.field appointmentData "time"
              else .str "09:00")
            else .undefined)
      ∧ ((jsonBody (updateAppointmentBody appointmentData)).map Prod.fst).Sublist
          ["id", "date", "time"] := by
  obtain ⟨n, rfl⟩ : ∃ n, fuel = n + 2 := ⟨fuel - 2, by omega⟩
  refine ⟨fun h => ?_, fun h => ?_, fun k => ?_, ?_⟩
  · simp [updateAppointment, h]
  · have hcall : updateAppointment env (n + 2) w appointmentData
        = API env (n + 2) w (updateAppointmentRequest appointmentData) := by
      simp [updateAppointment, h]
    refine ⟨hcall, ?_⟩
    obtain ⟨res, w', l, hrun, hsent, hlen, hsame, hzero, hone⟩ :=
      API_sent env n w (updateAppointmentRequest appointmentData)
    exact ⟨res, w', l, hcall.trans hrun, hsent, hlen, hsame, hzero, hone⟩
  · unfold updateAppointmentBody
    apply field_jsonBody_three
    by_cases ht : (JsVal.field appointmentData "time").truthy = true
    · rw [if_pos ht]
      exact ne_undefined_of_truthy _ ht
    · rw [if_neg ht]
      exact JsVal.noConfusion
  · exact (List.filter_sublist _).map Prod.fst

/-- C17, as amended, at a sample input: appointment 7 with no time given and no
date, a fresh token, a backend that answers 200; and an update without id. -/
theorem updateAppointment_spec_witness :
    (∃ res w' l, updateAppointment sampleEnv 2 (worldOf freshStore)
          [("id", .num 7), ("time", .str "")] = some (res, w')
        ∧ w'.sent = (worldOf freshStore).sent ++ l ∧ l.length ≤ 2
        ∧ (∀ c ∈ l, c.method = "put" ∧ c.url = "appointments/update/"
            ∧ c.data = jsonBody (updateAppointmentBody [("id", .num 7), ("time", .str "")]))
        ∧ (∀ e w1, requestInterceptor sampleEnv (worldOf freshStore)
              (updateAppointmentRequest [("id", .num 7), ("time", .str "")])
              = (.error e, w1) → l = [])
        ∧ (∀ c1 w1, requestInterceptor sampleEnv (worldOf freshStore)
              (updateAppointmentRequest [("id", .num 7), ("time", .str "")])
              = (.ok c1, w1) →
            (∀ r, sampleEnv.backend (worldOf freshStore).sent.length c1 = some r →
              r.status ≠ 401) → l = [c1]))
    ∧ updateAppointment sampleEnv 2 (worldOf freshStore) [("date", .str "2024-01-09")]
      = some (.error (.error "Appointment ID is required for updates"), worldOf freshStore) :=
  ⟨((updateAppointment_spec sampleEnv 2 (worldOf freshStore)
      [("id", .num 7), ("time", .str "")] (by decide)).2.1 rfl).2,
    (updateAppointment_spec sampleEnv 2 (worldOf freshStore)
      [("date", .str "2024-01-09")] (by decide)).1 rfl⟩

/-- C17 as stated fails in three ways. With the id given and a backend that
answers the first attempt with 401, the gateway refreshes and resends: two PUTs
are sent, not one. With the id given, a token about to expire and no refresh
token stored, no PUT is sent although the id is there. With the id 0, which is
given but falsy, the call fails with "Appointment ID is required for updates". And
with no date given the body that is sent has the keys id and time only. -/
theorem updateAppointment_counterexample :
    (updateAppointment expiredOnceEnv 2 (worldOf freshStore) sampleUpdate).map
        (fun p => p.2.sent.map (fun c => (c.method, c.url, c.data)))
      = some [("put", "appointments/update/", sampleUpdate),
          ("put", "appointments/update/", sampleUpdate)]
    ∧ (updateAppointment sampleEnv 2
        (worldOf { token := some "stale", refreshToken := none, username := some "u" })
        sampleUpdate).map (fun p => (p.1, p.2.sent))
      = some (.error (.error "No refresh token available"), [])
    ∧ updateAppointment sampleEnv 2 (worldOf freshStore)
        [("id", .num 0), ("date", .str "2024-01-09"), ("time", .str "10:30")]
      = some (.error (.error "Appointment ID is required for updates"), worldOf freshStore)
    ∧ (updateAppointment sampleEnv 2 (worldOf freshStore)
        [("id", .num 7), ("time", .str "")]).map (fun p => p.2.sent.map (fun c => c.data))
      = some [[("id", .num 7), ("time", .str "09:00")]] :=
  ⟨rfl, rfl, rfl, rfl⟩

/-! ## A token without a numeric expiry -/

/-- C24, as amended: a stored token that decodes and whose `exp` reads as NaN in
the subtraction (the payload has no `exp`, or a string that is no number) is
classified by `isTokenExpiringSoon` as not expiring soon, whatever the clock
reads; the request interceptor returns the request with the Authorization header
"Bearer " followed by that token and makes no refresh: no call of
`refreshAccessToken`, no post, no redirect, the store as it was. -/
theorem requestInterceptor_token_without_exp (env : Env) (w : World) (config : Request)
    (token : String) (claim : ExpClaim)
    (hstored : w.store.token = some token) (hne : token ≠ "")
    (hdec : env.jwtDecode token = some claim.toNumber)
    (hnan : claim.toNumber = none) :
    (claim = .absent ∨ claim = .nonNumericString)
      ∧ claim.isNumeric = false
      ∧ (isTokenExpiringSoon env w token).1 = false
      ∧ (requestInterceptor env w config).1
        = .ok (config.setAuthorization ("Bearer " ++ token))
      ∧ getHeader (config.setAuthorization ("Bearer " ++ token)).headers "Authorization"
        = some ("Bearer " ++ token)
      ∧ (requestInterceptor env w config).2.refreshCalls = w.refreshCalls
      ∧ (requestInterceptor env w config).2.refreshPosts = w.refreshPosts
      ∧ (requestInterceptor env w config).2.location = w.location
      ∧ (requestInterceptor env w config).2.store = w.store := by
  have hclaim : claim = .absent ∨ claim = .nonNumericString := by
    cases claim <;> simp [ExpClaim.toNumber] at hnan ⊢
  have hnum : claim.isNumeric = false := by
    rcases hclaim with rfl | rfl <;> rfl
  rw [hnan] at hdec
  have hsoon : isTokenExpiringSoon env w token
      = (false, { w with clockReads := w.clockReads + 1 }) := by
    simp [isTokenExpiringSoon, hdec]
  have hrun : requestInterceptor env w config
      = (.ok (config.setAuthorization ("Bearer " ++ token)),
          { w with clockReads := w.clockReads + 1 }) := by
    simp [requestInterceptor, hstored, hne, hsoon]
  rw [hrun, hsoon]
  exact ⟨hclaim, hnum, rfl, rfl, getHeader_setHeader _ _ _, rfl, rfl, rfl, rfl⟩

/-- C24, as amended, at a sample input: the token "noexp" decodes to a payload
without `exp`. -/
theorem requestInterceptor_token_without_exp_witness :
    (isTokenExpiringSoon nullExpEnv
        (worldOf { token := some "noexp", refreshToken := some "R1", username := some "u" })
        "noexp").1 = false
    ∧ (requestInterceptor nullExpEnv
        (worldOf { token := some "noexp", refreshToken := some "R1", username := some "u" })
        sampleRequest).1
      = .ok (sampleRequest.setAuthorization ("Bearer " ++ "noexp"))
    ∧ (requestInterceptor nullExpEnv
        (worldOf { token := some "noexp", refreshToken := some "R1", username := some "u" })
        sampleRequest).2.refreshCalls = 0 :=
  have h := requestInterceptor_token_without_exp nullExpEnv
    (worldOf { token := some "noexp", refreshToken := some "R1", username := some "u" })
    sampleRequest "noexp" .absent rfl (by decide) rfl rfl
  ⟨h.2.2.1, h.2.2.2.1, h.2.2.2.2.2.1⟩

/-- C24 as stated fails for a payload with `exp: null`: the token decodes, its
`exp` is no number, yet the subtraction reads `null` as 0, the token counts as
expired long ago, `isTokenExpiringSoon` returns true and the request interceptor
refreshes and attaches the new token `A2`, not the stored one. -/
theorem requestInterceptor_null_exp_counterexample :
    nullExpPayloads "nullexp" = some .null
    ∧ ExpClaim.null.isNumeric = false
    ∧ nullExpEnv.jwtDecode "nullexp" = some (some 0)
    ∧ (isTokenExpiringSoon nullExpEnv (worldOf nullExpStore) "nullexp").1 = true
    ∧ (requestInterceptor nullExpEnv (worldOf nullExpStore) sampleRequest).2.refreshCalls = 1
    ∧ (requestInterceptor nullExpEnv (worldOf nullExpStore) sampleRequest).1
      = .ok (sampleRequest.setAuthorization "Bearer A2")
    ∧ "Bearer A2" ≠ "Bearer " ++ "nullexp" :=
  ⟨rfl, rfl, rfl, rfl, rfl, rfl, by decide⟩

end HolisticHospitals
